import Mathlib

/-!
Verification of the dashboard resource provider's conversion layer.

The Go source converts between Terraform's dynamically typed configuration
trees (`map[string]interface{}`, `[]interface{}`, ...) and the vendor
client's typed widget structs, and adapts the CRUD entry points.  This file
shallowly embeds that code:

* `GoVal` models a Go `interface{}` value, with one constructor per dynamic
  type that the source stores or asserts (string, int, bool,
  `[]interface{}`, `map[string]interface{}`, `map[string]string`,
  `[]string`, `[]map[string]interface{}` and the pointer types
  `*[]map[string]interface{}` / `*[]map[string]string` that some encoders
  store).  A Go type assertion succeeds only on the exactly matching
  constructor, as in Go.
* Fallible code runs in `Except GoError`: a Go function returning `error`
  yields `.goErr msg`; a run-time fault (failed unchecked type assertion,
  nil-pointer dereference) yields `.panic`, which propagates through every
  caller exactly as a Go panic does.
* Machine integers are `Int` with explicit int64 range checks where the
  source calls `strconv.ParseInt(_, 10, 64)`.
* The widget-layout floats go through `strconv.ParseFloat`/`FormatFloat`;
  IEEE-754 binary64 values are not representable in this embedding, so the
  layout model stores the decimal strings themselves and only checks
  syntactic parseability (see the discussion at the layout codec below).
-/

/-- Model of a Go `interface{}` value as stored in a Terraform
configuration tree.  Constructors correspond to the concrete dynamic types
the source stores or asserts. -/
inductive GoVal where
  /-- a `string` -/
  | str (s : String)
  /-- an `int` -/
  | int (n : Int)
  /-- a `bool` -/
  | bool (b : Bool)
  /-- a `[]interface{}` -/
  | list (xs : List GoVal)
  /-- a `map[string]interface{}` (association list; Go maps have no
  observable order, the list order is an embedding artifact) -/
  | imap (m : List (String × GoVal))
  /-- a `map[string]string` -/
  | smap (m : List (String × String))
  /-- a `[]string` -/
  | strList (xs : List String)
  /-- a `[]map[string]interface{}` -/
  | mapsList (xs : List (List (String × GoVal)))
  /-- a `*[]map[string]interface{}` (a pointer to a slice of maps; some
  encoders store this, and it does not type-assert to `[]interface{}`) -/
  | ptrMapsList (xs : List (List (String × GoVal)))
  /-- a `*[]map[string]string` -/
  | ptrSMapsList (xs : List (List (String × String)))
deriving Repr

/-- A Go `map[string]interface{}` as the decoders receive it. -/
abbrev TMap := List (String × GoVal)

/-- Association-list lookup, the model of Go map indexing `m[k]`
(`none` models the `nil` result for a missing key). -/
def aget {α : Type} (m : List (String × α)) (k : String) : Option α :=
  match m with
  | [] => none
  | (k', v) :: rest => if k' = k then some v else aget rest k

/-- Errors of the embedded Go code: `goErr` is a returned `error` value,
`panic` is a run-time fault (failed unchecked type assertion or nil
dereference), which propagates through every caller. -/
inductive GoError where
  | panic
  | goErr (msg : String)
deriving Repr, DecidableEq

/-- Model of the comma-ok string assertion `v, ok := x.(string)`:
succeeds only when the dynamic type is exactly `string`. -/
def asStrOk (v : Option GoVal) : Option String :=
  match v with
  | some (.str s) => some s
  | _ => none

/-- Model of the unchecked string assertion `x.(string)`: panics unless the
dynamic type is exactly `string` (a missing key yields a nil interface,
which also panics). -/
def asStr (v : Option GoVal) : Except GoError String :=
  match v with
  | some (.str s) => .ok s
  | _ => .error .panic

/-- Comma-ok `x.(int)`. -/
def asIntOk (v : Option GoVal) : Option Int :=
  match v with
  | some (.int n) => some n
  | _ => none

/-- Unchecked `x.(bool)`. -/
def asBool (v : Option GoVal) : Except GoError Bool :=
  match v with
  | some (.bool b) => .ok b
  | _ => .error .panic

/-- Comma-ok `x.([]interface{})`. -/
def asListOk (v : Option GoVal) : Option (List GoVal) :=
  match v with
  | some (.list xs) => some xs
  | _ => none

/-- Unchecked `x.([]interface{})`. -/
def asList (v : Option GoVal) : Except GoError (List GoVal) :=
  match v with
  | some (.list xs) => .ok xs
  | _ => .error .panic

/-- Comma-ok `x.(map[string]interface{})`. -/
def asIMapOk (v : Option GoVal) : Option TMap :=
  match v with
  | some (.imap m) => some m
  | _ => none

/-- Unchecked `x.(map[string]interface{})`. -/
def asIMap (v : Option GoVal) : Except GoError TMap :=
  match v with
  | some (.imap m) => .ok m
  | _ => .error .panic

/-- Comma-ok `x.(map[string]string)`. -/
def asSMapOk (v : Option GoVal) : Option (List (String × String)) :=
  match v with
  | some (.smap m) => some m
  | _ => none

/-- Model of the Go nil-pointer dereference `*p`: panics on `nil`. -/
def deref {α : Type} (v : Option α) : Except GoError α :=
  match v with
  | some a => .ok a
  | none => .error .panic

/-!
## Model of `strconv` integer formatting and parsing (base 10, bit size 64)

`FormatInt` produces the decimal digits most-significant first with a `-`
sign for negative values; `ParseInt` accepts an optional sign followed by
decimal digits and fails on the empty string, on a non-digit character, or
when the value exceeds the int64 range.  The digit loop is written with
explicit fuel (the dividend itself bounds the number of iterations), which
keeps every definition reducible by the kernel.
-/

/-- The decimal digit table of `strconv` (`"0123456789..."[d]`). -/
def natDigitChar (d : Nat) : Char :=
  match d with
  | 0 => '0' | 1 => '1' | 2 => '2' | 3 => '3' | 4 => '4'
  | 5 => '5' | 6 => '6' | 7 => '7' | 8 => '8' | _ => '9'

/-- Little-endian base-10 digits of `n`; `fuel ≥ n` suffices. -/
def natDigitsAux (fuel n : Nat) : List Nat :=
  match fuel, n with
  | 0, _ => []
  | _ + 1, 0 => []
  | fuel + 1, n + 1 => ((n + 1) % 10) :: natDigitsAux fuel ((n + 1) / 10)

/-- Decimal character representation of a natural number, most-significant
digit first (`strconv` formatting of a non-negative value). -/
def formatNat (n : Nat) : List Char :=
  if n = 0 then ['0'] else ((natDigitsAux n n).reverse.map natDigitChar)

/-- Model of `strconv.FormatInt(i, 10)`. -/
def formatInt (i : Int) : String :=
  if i < 0 then ⟨'-' :: formatNat i.natAbs⟩ else ⟨formatNat i.toNat⟩

/-- Value of a decimal digit character, `none` on a non-digit. -/
def digitVal (c : Char) : Option Nat :=
  if 48 ≤ c.toNat ∧ c.toNat ≤ 57 then some (c.toNat - 48) else none

/-- Parse a run of decimal digit characters (most-significant first) into
the digit list; fails on any non-digit. -/
def parseDigitsAux : List Char → Option (List Nat)
  | [] => some []
  | c :: cs =>
    match digitVal c, parseDigitsAux cs with
    | some d, some ds => some (d :: ds)
    | _, _ => none

/-- Numeric value of a little-endian digit list. -/
def digitsVal : List Nat → Nat
  | [] => 0
  | d :: ds => d + 10 * digitsVal ds

/-- Digit-run stage of `ParseInt`: parse, reject the empty run, apply the
sign and the int64 range check. -/
def parseInt64Digits (neg : Bool) (cs : List Char) : Option Int :=
  match parseDigitsAux cs with
  | none => none
  | some l =>
    if l = [] then none
    else
      let n : Int := digitsVal l.reverse
      if neg then
        if n ≤ 2 ^ 63 then some (-n) else none
      else
        if n < 2 ^ 63 then some n else none

/-- Sign stage of `ParseInt`, over the character list. -/
def parseInt64Core : List Char → Option Int
  | [] => none
  | c :: cs =>
    if c = '-' then parseInt64Digits true cs
    else if c = '+' then parseInt64Digits false cs
    else parseInt64Digits false (c :: cs)

/-- Model of `strconv.ParseInt(s, 10, 64)`: optional sign, decimal digits,
int64 range check; `none` models the error return. -/
def parseInt64 (s : String) : Option Int :=
  parseInt64Core s.data

theorem digitsVal_natDigitsAux (fuel : Nat) :
    ∀ n : Nat, n ≤ fuel → digitsVal (natDigitsAux fuel n) = n := by
  induction fuel with
  | zero => intro n h; interval_cases n; rfl
  | succ f ih =>
    intro n h
    match n with
    | 0 => rfl
    | m + 1 =>
      have hdiv : (m + 1) / 10 ≤ f := by
        have : (m + 1) / 10 < m + 1 := Nat.div_lt_self (Nat.succ_pos m) (by norm_num)
        omega
      simp only [natDigitsAux, digitsVal, ih _ hdiv]
      omega

theorem natDigitsAux_lt (fuel : Nat) :
    ∀ n d : Nat, d ∈ natDigitsAux fuel n → d < 10 := by
  induction fuel with
  | zero => intro n d h; simp [natDigitsAux] at h
  | succ f ih =>
    intro n d h
    match n with
    | 0 => simp [natDigitsAux] at h
    | m + 1 =>
      simp only [natDigitsAux, List.mem_cons] at h
      rcases h with h | h
      · omega
      · exact ih _ _ h

theorem digitVal_natDigitChar {d : Nat} (h : d < 10) :
    digitVal (natDigitChar d) = some d := by
  interval_cases d <;> rfl

theorem natDigitChar_not_sign (d : Nat) :
    natDigitChar d ≠ '-' ∧ natDigitChar d ≠ '+' := by
  unfold natDigitChar
  split <;> exact ⟨by decide, by decide⟩

theorem parseDigitsAux_map {l : List Nat} (h : ∀ d ∈ l, d < 10) :
    parseDigitsAux (l.map natDigitChar) = some l := by
  induction l with
  | nil => rfl
  | cons d ds ih =>
    have hd : d < 10 := h d (List.mem_cons_self d ds)
    have hds : ∀ x ∈ ds, x < 10 := fun x hx => h x (List.mem_cons_of_mem d hx)
    simp only [List.map_cons, parseDigitsAux, digitVal_natDigitChar hd, ih hds]

theorem parseDigitsAux_formatNat (n : Nat) :
    parseDigitsAux (formatNat n) =
      some (if n = 0 then [0] else (natDigitsAux n n).reverse) := by
  by_cases h : n = 0
  · subst h; rfl
  · simp only [formatNat, if_neg h]
    exact parseDigitsAux_map fun d hd =>
      natDigitsAux_lt n n d (List.mem_reverse.mp hd)

theorem formatNat_ne_nil (n : Nat) : formatNat n ≠ [] := by
  by_cases h : n = 0
  · subst h; simp [formatNat]
  · simp only [formatNat, if_neg h, ne_eq, List.map_eq_nil_iff, List.reverse_eq_nil_iff]
    intro hcon
    have := digitsVal_natDigitsAux n n le_rfl
    rw [hcon] at this
    simp [digitsVal] at this
    omega

theorem formatNat_head_not_sign {n : Nat} {c : Char} {cs : List Char}
    (h : formatNat n = c :: cs) : c ≠ '-' ∧ c ≠ '+' := by
  by_cases hz : n = 0
  · subst hz
    simp [formatNat] at h
    rw [← h.1]
    exact ⟨by decide, by decide⟩
  · have hc : c ∈ formatNat n := by rw [h]; exact List.mem_cons_self c cs
    simp only [formatNat, if_neg hz, List.mem_map] at hc
    obtain ⟨d, _, hd⟩ := hc
    rw [← hd]
    exact natDigitChar_not_sign d

/-- The value parsed back from a formatted digit run is the original
number. -/
theorem parse_formatNat_val (n : Nat) :
    ∃ l, parseDigitsAux (formatNat n) = some l ∧ l ≠ [] ∧
      digitsVal l.reverse = n := by
  refine ⟨if n = 0 then [0] else (natDigitsAux n n).reverse,
    parseDigitsAux_formatNat n, ?_, ?_⟩
  · by_cases h : n = 0
    · simp [h]
    · simp only [if_neg h, ne_eq, List.reverse_eq_nil_iff]
      intro hcon
      have := digitsVal_natDigitsAux n n le_rfl
      rw [hcon] at this
      simp [digitsVal] at this
      omega
  · by_cases h : n = 0
    · simp [h, digitsVal]
    · simp only [if_neg h, List.reverse_reverse]
      exact digitsVal_natDigitsAux n n le_rfl

theorem parseInt64Digits_formatNat_neg (n : Nat) (h : (n : Int) ≤ 2 ^ 63) :
    parseInt64Digits true (formatNat n) = some (-(n : Int)) := by
  obtain ⟨l, hparse, hne, hval⟩ := parse_formatNat_val n
  simp only [parseInt64Digits, hparse, if_neg hne, hval]
  simp
  omega

theorem parseInt64Digits_formatNat_pos (n : Nat) (h : (n : Int) < 2 ^ 63) :
    parseInt64Digits false (formatNat n) = some (n : Int) := by
  obtain ⟨l, hparse, hne, hval⟩ := parse_formatNat_val n
  simp only [parseInt64Digits, hparse, if_neg hne, hval]
  simp
  omega

/-- Round trip of the `strconv` model: parsing a formatted int64 yields the
value back. -/
theorem parseInt64_formatInt {i : Int} (h₁ : -(2 ^ 63) ≤ i) (h₂ : i < 2 ^ 63) :
    parseInt64 (formatInt i) = some i := by
  by_cases hneg : i < 0
  · show parseInt64Core (formatInt i).data = some i
    simp only [formatInt, if_pos hneg]
    show parseInt64Core ('-' :: formatNat i.natAbs) = some i
    simp only [parseInt64Core, if_pos rfl]
    rw [parseInt64Digits_formatNat_neg i.natAbs (by omega)]
    have hv : -((i.natAbs : Int)) = i := by omega
    rw [hv]
    simp
  · push_neg at hneg
    show parseInt64Core (formatInt i).data = some i
    simp only [formatInt, if_neg (by omega : ¬ i < 0)]
    show parseInt64Core (formatNat i.toNat) = some i
    obtain ⟨c, cs, hcons⟩ : ∃ c cs, formatNat i.toNat = c :: cs := by
      cases hfn : formatNat i.toNat with
      | nil => exact absurd hfn (formatNat_ne_nil _)
      | cons c cs => exact ⟨c, cs, rfl⟩
    obtain ⟨hcm, hcp⟩ := formatNat_head_not_sign hcons
    rw [hcons]
    simp only [parseInt64Core, if_neg hcm, if_neg hcp, ← hcons]
    rw [parseInt64Digits_formatNat_pos i.toNat (by omega)]
    have hv : ((i.toNat : Int)) = i := by omega
    rw [hv]

/-!
## The vendor client's data model

Models of the typed structs of the dashboard API client.  Pointer-typed
fields (`*string`, `*int`, `*bool`) and nil-able slices become `Option`;
the `SetX`/`GetXOk` accessors of the client are option assignment and
matching.  The widget-kind constants carry the client's discriminator
strings.
-/

def GROUP_WIDGET : String := "group"
def NOTE_WIDGET : String := "note"
def ALERT_GRAPH_WIDGET : String := "alert_graph"
def ALERT_VALUE_WIDGET : String := "alert_value"
def CHECK_STATUS_WIDGET : String := "check_status"
def EVENT_STREAM_WIDGET : String := "event_stream"
def FREE_TEXT_WIDGET : String := "free_text"
def IFRAME_WIDGET : String := "iframe"
def IMAGE_WIDGET : String := "image"
def LOG_STREAM_WIDGET : String := "log_stream"
def TIMESERIES_WIDGET : String := "timeseries"

/-- `datadog.WidgetTime`. -/
structure WidgetTime where
  liveSpan : Option String := none
deriving Repr, DecidableEq

/-- `datadog.WidgetMarker`. -/
structure WidgetMarker where
  value : Option String := none
  displayType : Option String := none
  label : Option String := none
deriving Repr, DecidableEq

/-- `datadog.WidgetLayout`.  The source stores `float64` coordinates; this
embedding keeps the decimal strings that pass the syntactic parse check
(IEEE-754 values themselves are outside the embedding, see the module
comment). -/
structure WidgetLayout where
  x : Option String := none
  y : Option String := none
  width : Option String := none
  height : Option String := none
deriving Repr, DecidableEq

/-- `datadog.NoteDefinition`. -/
structure NoteDefinition where
  type : Option String := none
  content : Option String := none
  backgroundColor : Option String := none
  fontSize : Option String := none
  textAlign : Option String := none
  showTick : Option Bool := none
  tickPos : Option String := none
  tickEdge : Option String := none
deriving Repr, DecidableEq

/-- `datadog.AlertGraphDefinition`. -/
structure AlertGraphDefinition where
  type : Option String := none
  alertId : Option String := none
  vizType : Option String := none
  title : Option String := none
  titleSize : Option String := none
  titleAlign : Option String := none
  time : Option WidgetTime := none
deriving Repr, DecidableEq

/-- `datadog.AlertValueDefinition`. -/
structure AlertValueDefinition where
  type : Option String := none
  alertId : Option String := none
  precision : Option Int := none
  unit : Option String := none
  textAlign : Option String := none
  title : Option String := none
  titleSize : Option String := none
  titleAlign : Option String := none
deriving Repr, DecidableEq

/-- `datadog.CheckStatusDefinition`. -/
structure CheckStatusDefinition where
  type : Option String := none
  check : Option String := none
  grouping : Option String := none
  group : Option String := none
  groupBy : Option (List String) := none
  tags : Option (List String) := none
  title : Option String := none
  titleSize : Option String := none
  titleAlign : Option String := none
  time : Option WidgetTime := none
deriving Repr, DecidableEq

/-- `datadog.EventStreamDefinition` (its dispatch cases are commented out
in the source, making it the resident unsupported kind). -/
structure EventStreamDefinition where
  type : Option String := none
  query : Option String := none
  eventSize : Option String := none
  title : Option String := none
  titleSize : Option String := none
  titleAlign : Option String := none
  time : Option WidgetTime := none
deriving Repr, DecidableEq

/-- `datadog.FreeTextDefinition`. -/
structure FreeTextDefinition where
  type : Option String := none
  text : Option String := none
  color : Option String := none
  fontSize : Option String := none
  textAlign : Option String := none
deriving Repr, DecidableEq

/-- `datadog.IframeDefinition`. -/
structure IframeDefinition where
  type : Option String := none
  url : Option String := none
deriving Repr, DecidableEq

/-- `datadog.ImageDefinition`. -/
structure ImageDefinition where
  type : Option String := none
  url : Option String := none
  sizing : Option String := none
  margin : Option String := none
deriving Repr, DecidableEq

/-- `datadog.LogStreamDefinition`. -/
structure LogStreamDefinition where
  type : Option String := none
  logset : Option String := none
  query : Option String := none
  columns : Option (List String) := none
  title : Option String := none
  titleSize : Option String := none
  titleAlign : Option String := none
  time : Option WidgetTime := none
deriving Repr, DecidableEq

/-- `datadog.ApmOrLogQueryCompute`. -/
structure ApmOrLogQueryCompute where
  aggregation : Option String := none
  facet : Option String := none
  interval : Option Int := none
deriving Repr, DecidableEq

/-- `datadog.ApmOrLogQuerySearch`. -/
structure ApmOrLogQuerySearch where
  query : Option String := none
deriving Repr, DecidableEq

/-- `datadog.ApmOrLogQueryGroupBySort`. -/
structure ApmOrLogQueryGroupBySort where
  aggregation : Option String := none
  order : Option String := none
  facet : Option String := none
deriving Repr, DecidableEq

/-- `datadog.ApmOrLogQueryGroupBy`. -/
structure ApmOrLogQueryGroupBy where
  facet : Option String := none
  limit : Option Int := none
  sort : Option ApmOrLogQueryGroupBySort := none
deriving Repr, DecidableEq

/-- `datadog.WidgetApmOrLogQuery`. -/
structure WidgetApmOrLogQuery where
  index : Option String := none
  compute : Option ApmOrLogQueryCompute := none
  search : Option ApmOrLogQuerySearch := none
  groupBy : Option (List ApmOrLogQueryGroupBy) := none
deriving Repr, DecidableEq

/-- `datadog.WidgetProcessQuery`. -/
structure WidgetProcessQuery where
  metric : Option String := none
  searchBy : Option String := none
  filterBy : Option (List String) := none
  limit : Option Int := none
deriving Repr, DecidableEq

/-- `datadog.TimeseriesRequest` (the query alternatives and the
timeseries-specific display type). -/
structure TimeseriesRequest where
  metricQuery : Option String := none
  apmQuery : Option WidgetApmOrLogQuery := none
  logQuery : Option WidgetApmOrLogQuery := none
  processQuery : Option WidgetProcessQuery := none
  displayType : Option String := none
deriving Repr, DecidableEq

/-- `datadog.TimeseriesDefinition`. -/
structure TimeseriesDefinition where
  type : Option String := none
  requests : List TimeseriesRequest := []
  markers : Option (List WidgetMarker) := none
  title : Option String := none
  titleSize : Option String := none
  titleAlign : Option String := none
  time : Option WidgetTime := none
deriving Repr, DecidableEq

mutual
/-- `datadog.BoardWidget.Definition`, a tagged union over the widget kinds.
The `other` variant models a vendor definition kind outside the catalog the
provider is written against (the client library defines more widget kinds
than this file handles); it carries its discriminator string. -/
inductive DatadogDefinition where
  | group (g : GroupDefinition)
  | note (d : NoteDefinition)
  | alertGraph (d : AlertGraphDefinition)
  | alertValue (d : AlertValueDefinition)
  | checkStatus (d : CheckStatusDefinition)
  | eventStream (d : EventStreamDefinition)
  | freeText (d : FreeTextDefinition)
  | iframe (d : IframeDefinition)
  | image (d : ImageDefinition)
  | logStream (d : LogStreamDefinition)
  | timeseries (d : TimeseriesDefinition)
  | other (tag : String)

/-- `datadog.GroupDefinition`, the recursive container variant. -/
inductive GroupDefinition where
  | mk (type : Option String) (layoutType : Option String)
       (title : Option String) (widgets : List BoardWidget)

/-- `datadog.BoardWidget`: an optional layout plus the definition
interface value (`none` models a nil `Definition`). -/
inductive BoardWidget where
  | mk (definition : Option DatadogDefinition) (layout : Option WidgetLayout)
end

def GroupDefinition.type : GroupDefinition → Option String
  | .mk t _ _ _ => t

def GroupDefinition.layoutType : GroupDefinition → Option String
  | .mk _ lt _ _ => lt

def GroupDefinition.title : GroupDefinition → Option String
  | .mk _ _ ti _ => ti

def GroupDefinition.widgets : GroupDefinition → List BoardWidget
  | .mk _ _ _ ws => ws

def BoardWidget.definition : BoardWidget → Option DatadogDefinition
  | .mk d _ => d

def BoardWidget.layout : BoardWidget → Option WidgetLayout
  | .mk _ l => l

/-- Model of the client's `BoardWidget.GetWidgetType`: the discriminator of
the definition's kind, an error when no definition is set. -/
def GetWidgetType (w : BoardWidget) : Except GoError String :=
  match w.definition with
  | none => .error (.goErr "widget type is not defined")
  | some (.group _) => .ok GROUP_WIDGET
  | some (.note _) => .ok NOTE_WIDGET
  | some (.alertGraph _) => .ok ALERT_GRAPH_WIDGET
  | some (.alertValue _) => .ok ALERT_VALUE_WIDGET
  | some (.checkStatus _) => .ok CHECK_STATUS_WIDGET
  | some (.eventStream _) => .ok EVENT_STREAM_WIDGET
  | some (.freeText _) => .ok FREE_TEXT_WIDGET
  | some (.iframe _) => .ok IFRAME_WIDGET
  | some (.image _) => .ok IMAGE_WIDGET
  | some (.logStream _) => .ok LOG_STREAM_WIDGET
  | some (.timeseries _) => .ok TIMESERIES_WIDGET
  | some (.other tag) => .ok tag

/-- `datadog.TemplateVariable`. -/
structure TemplateVariable where
  name : Option String := none
  prefixField : Option String := none
  defaultField : Option String := none
deriving Repr, DecidableEq

/-- `datadog.Board`. -/
structure Board where
  id : Option String := none
  title : Option String := none
  layoutType : Option String := none
  description : Option String := none
  isReadOnly : Option Bool := none
  widgets : List BoardWidget := []
  templateVariables : List TemplateVariable := []
  notifyList : List String := []

/-!
## Encoder field helpers

The encoders build `map[string]interface{}` values by conditional
insertion (`if ptr != nil { m[k] = *ptr }`).  These helpers render one such
conditional entry; the encoders append them in the source's insertion
order.
-/

/-- `if p != nil { m[k] = *p }` for a `*string` field. -/
def optStrField (k : String) : Option String → TMap
  | some v => [(k, .str v)]
  | none => []

/-- `if p != nil { m[k] = *p }` for a `*int` field. -/
def optIntField (k : String) : Option Int → TMap
  | some v => [(k, .int v)]
  | none => []

/-- `if p != nil { m[k] = *p }` for a `*bool` field. -/
def optBoolField (k : String) : Option Bool → TMap
  | some v => [(k, .bool v)]
  | none => []

/-!
## Widget time and marker codecs (`buildDatadogWidgetTime`,
`buildTerraformWidgetTime`, `buildDatadogWidgetMarkers`,
`buildTerraformWidgetMarkers`)
-/

/-- `buildDatadogWidgetTime`. -/
def buildDatadogWidgetTime (m : TMap) : WidgetTime :=
  match asStrOk (aget m "live_span") with
  | some v => if v = "" then {} else { liveSpan := some v }
  | none => {}

/-- `buildTerraformWidgetTime` (returns a `map[string]string`). -/
def buildTerraformWidgetTime (t : WidgetTime) : List (String × String) :=
  match t.liveSpan with
  | some v => [("live_span", v)]
  | none => []

/-- The per-marker body of `buildDatadogWidgetMarkers` (unchecked
assertions on the element map and the required `value`). -/
def buildDatadogWidgetMarker (v : GoVal) : Except GoError WidgetMarker := do
  let m ← asIMap (some v)
  let value ← asStr (aget m "value")
  let mk : WidgetMarker := { value := some value }
  let mk := match asStrOk (aget m "display_type") with
    | some v => if v = "" then mk else { mk with displayType := some v }
    | none => mk
  let mk := match asStrOk (aget m "label") with
    | some v => if v = "" then mk else { mk with label := some v }
    | none => mk
  pure mk

/-- `buildDatadogWidgetMarkers`. -/
def buildDatadogWidgetMarkers (vs : List GoVal) : Except GoError (List WidgetMarker) :=
  vs.mapM buildDatadogWidgetMarker

/-- The per-marker body of `buildTerraformWidgetMarkers` (dereferences the
required `value`). -/
def buildTerraformWidgetMarker (mk : WidgetMarker) : Except GoError (List (String × String)) := do
  let value ← deref mk.value
  let base : List (String × String) := [("value", value)]
  let base := match mk.displayType with
    | some v => base ++ [("display_type", v)]
    | none => base
  let base := match mk.label with
    | some v => base ++ [("label", v)]
    | none => base
  pure base

/-- `buildTerraformWidgetMarkers` (returns a `*[]map[string]string`). -/
def buildTerraformWidgetMarkers (ms : List WidgetMarker) :
    Except GoError (List (List (String × String))) :=
  ms.mapM buildTerraformWidgetMarker

/-!
## Scalar widget-definition codecs

Each definition kind has a decoder (`buildDatadogXDefinition`,
configuration map → typed struct) and an encoder
(`buildTerraformXDefinition`, typed struct → configuration map).  Required
fields use unchecked type assertions on decode and nil dereferences on
encode; optional string fields are copied only when present and non-empty;
optional int fields only when non-zero.
-/

/-- `buildDatadogNoteDefinition`. -/
def buildDatadogNoteDefinition (m : TMap) : Except GoError NoteDefinition := do
  let content ← asStr (aget m "content")
  let d : NoteDefinition := { type := some NOTE_WIDGET, content := some content }
  let d := match asStrOk (aget m "background_color") with
    | some v => if v = "" then d else { d with backgroundColor := some v }
    | none => d
  let d := match asStrOk (aget m "font_size") with
    | some v => if v = "" then d else { d with fontSize := some v }
    | none => d
  let d := match asStrOk (aget m "text_align") with
    | some v => if v = "" then d else { d with textAlign := some v }
    | none => d
  let d ← match aget m "show_tick" with
    | some v => do
        let b ← asBool (some v)
        pure { d with showTick := some b }
    | none => pure d
  let d := match asStrOk (aget m "tick_pos") with
    | some v => if v = "" then d else { d with tickPos := some v }
    | none => d
  let d := match asStrOk (aget m "tick_edge") with
    | some v => if v = "" then d else { d with tickEdge := some v }
    | none => d
  pure d

/-- `buildTerraformNoteDefinition`. -/
def buildTerraformNoteDefinition (d : NoteDefinition) : Except GoError TMap := do
  let content ← deref d.content
  pure ([("content", GoVal.str content)]
    ++ optStrField "background_color" d.backgroundColor
    ++ optStrField "font_size" d.fontSize
    ++ optStrField "text_align" d.textAlign
    ++ optBoolField "show_tick" d.showTick
    ++ optStrField "tick_pos" d.tickPos
    ++ optStrField "tick_edge" d.tickEdge)

/-- `buildDatadogAlertGraphDefinition`. -/
def buildDatadogAlertGraphDefinition (m : TMap) : Except GoError AlertGraphDefinition := do
  let alertId ← asStr (aget m "alert_id")
  let vizType ← asStr (aget m "viz_type")
  let d : AlertGraphDefinition :=
    { type := some ALERT_GRAPH_WIDGET, alertId := some alertId, vizType := some vizType }
  let d := match asStrOk (aget m "title") with
    | some v => if v = "" then d else { d with title := some v }
    | none => d
  let d := match asStrOk (aget m "title_size") with
    | some v => if v = "" then d else { d with titleSize := some v }
    | none => d
  let d := match asStrOk (aget m "title_align") with
    | some v => if v = "" then d else { d with titleAlign := some v }
    | none => d
  let d := match asIMapOk (aget m "time") with
    | some tm => if tm.isEmpty then d else { d with time := some (buildDatadogWidgetTime tm) }
    | none => d
  pure d

/-- `buildTerraformAlertGraphDefinition`. -/
def buildTerraformAlertGraphDefinition (d : AlertGraphDefinition) : Except GoError TMap := do
  let alertId ← deref d.alertId
  let vizType ← deref d.vizType
  let base : TMap := [("alert_id", .str alertId), ("viz_type", .str vizType)]
  let base := base ++ optStrField "title" d.title
    ++ optStrField "title_size" d.titleSize
    ++ optStrField "title_align" d.titleAlign
  let base := match d.time with
    | some t => base ++ [("time", GoVal.smap (buildTerraformWidgetTime t))]
    | none => base
  pure base

/-- `buildDatadogAlertValueDefinition`. -/
def buildDatadogAlertValueDefinition (m : TMap) : Except GoError AlertValueDefinition := do
  let alertId ← asStr (aget m "alert_id")
  let d : AlertValueDefinition := { type := some ALERT_VALUE_WIDGET, alertId := some alertId }
  let d := match asIntOk (aget m "precision") with
    | some v => if v = 0 then d else { d with precision := some v }
    | none => d
  let d := match asStrOk (aget m "unit") with
    | some v => if v = "" then d else { d with unit := some v }
    | none => d
  let d := match asStrOk (aget m "text_align") with
    | some v => if v = "" then d else { d with textAlign := some v }
    | none => d
  let d := match asStrOk (aget m "title") with
    | some v => if v = "" then d else { d with title := some v }
    | none => d
  let d := match asStrOk (aget m "title_size") with
    | some v => if v = "" then d else { d with titleSize := some v }
    | none => d
  let d := match asStrOk (aget m "title_align") with
    | some v => if v = "" then d else { d with titleAlign := some v }
    | none => d
  pure d

/-- `buildTerraformAlertValueDefinition`. -/
def buildTerraformAlertValueDefinition (d : AlertValueDefinition) : Except GoError TMap := do
  let alertId ← deref d.alertId
  pure ([("alert_id", GoVal.str alertId)]
    ++ optIntField "precision" d.precision
    ++ optStrField "unit" d.unit
    ++ optStrField "text_align" d.textAlign
    ++ optStrField "title" d.title
    ++ optStrField "title_size" d.titleSize
    ++ optStrField "title_align" d.titleAlign)

/-- `buildDatadogCheckStatusDefinition`. -/
def buildDatadogCheckStatusDefinition (m : TMap) : Except GoError CheckStatusDefinition := do
  let check ← asStr (aget m "check")
  let grouping ← asStr (aget m "grouping")
  let d : CheckStatusDefinition :=
    { type := some CHECK_STATUS_WIDGET, check := some check, grouping := some grouping }
  let d := match asStrOk (aget m "group") with
    | some v => if v = "" then d else { d with group := some v }
    | none => d
  let d ← match asListOk (aget m "group_by") with
    | some l =>
      if l.isEmpty then pure d
      else do
        let gbs ← l.mapM (fun x => asStr (some x))
        pure { d with groupBy := some gbs }
    | none => pure d
  let d ← match asListOk (aget m "tags") with
    | some l =>
      if l.isEmpty then pure d
      else do
        let ts ← l.mapM (fun x => asStr (some x))
        pure { d with tags := some ts }
    | none => pure d
  let d := match asStrOk (aget m "title") with
    | some v => if v = "" then d else { d with title := some v }
    | none => d
  let d := match asStrOk (aget m "title_size") with
    | some v => if v = "" then d else { d with titleSize := some v }
    | none => d
  let d := match asStrOk (aget m "title_align") with
    | some v => if v = "" then d else { d with titleAlign := some v }
    | none => d
  let d := match asIMapOk (aget m "time") with
    | some tm => if tm.isEmpty then d else { d with time := some (buildDatadogWidgetTime tm) }
    | none => d
  pure d

/-- `buildTerraformCheckStatusDefinition`. -/
def buildTerraformCheckStatusDefinition (d : CheckStatusDefinition) : Except GoError TMap := do
  let check ← deref d.check
  let grouping ← deref d.grouping
  let base : TMap := [("check", .str check), ("grouping", .str grouping)]
  let base := base ++ optStrField "group" d.group
  let base := match d.groupBy with
    | some l => base ++ [("group_by", GoVal.strList l)]
    | none => base
  let base := match d.tags with
    | some l => base ++ [("tags", GoVal.strList l)]
    | none => base
  let base := base ++ optStrField "title" d.title
    ++ optStrField "title_size" d.titleSize
    ++ optStrField "title_align" d.titleAlign
  let base := match d.time with
    | some t => base ++ [("time", GoVal.smap (buildTerraformWidgetTime t))]
    | none => base
  pure base

/-- `buildDatadogFreeTextDefinition`. -/
def buildDatadogFreeTextDefinition (m : TMap) : Except GoError FreeTextDefinition := do
  let text ← asStr (aget m "text")
  let d : FreeTextDefinition := { type := some FREE_TEXT_WIDGET, text := some text }
  let d := match asStrOk (aget m "color") with
    | some v => if v = "" then d else { d with color := some v }
    | none => d
  let d := match asStrOk (aget m "font_size") with
    | some v => if v = "" then d else { d with fontSize := some v }
    | none => d
  let d := match asStrOk (aget m "text_align") with
    | some v => if v = "" then d else { d with textAlign := some v }
    | none => d
  pure d

/-- `buildTerraformFreeTextDefinition`. -/
def buildTerraformFreeTextDefinition (d : FreeTextDefinition) : Except GoError TMap := do
  let text ← deref d.text
  pure ([("text", GoVal.str text)]
    ++ optStrField "color" d.color
    ++ optStrField "font_size" d.fontSize
    ++ optStrField "text_align" d.textAlign)

/-- `buildDatadogIframeDefinition`. -/
def buildDatadogIframeDefinition (m : TMap) : Except GoError IframeDefinition := do
  let url ← asStr (aget m "url")
  pure { type := some IFRAME_WIDGET, url := some url }

/-- `buildTerraformIframeDefinition`. -/
def buildTerraformIframeDefinition (d : IframeDefinition) : Except GoError TMap := do
  let url ← deref d.url
  pure [("url", GoVal.str url)]

/-- `buildDatadogImageDefinition`. -/
def buildDatadogImageDefinition (m : TMap) : Except GoError ImageDefinition := do
  let url ← asStr (aget m "url")
  let d : ImageDefinition := { type := some IMAGE_WIDGET, url := some url }
  let d := match asStrOk (aget m "sizing") with
    | some v => if v = "" then d else { d with sizing := some v }
    | none => d
  let d := match asStrOk (aget m "margin") with
    | some v => if v = "" then d else { d with margin := some v }
    | none => d
  pure d

/-- `buildTerraformImageDefinition`. -/
def buildTerraformImageDefinition (d : ImageDefinition) : Except GoError TMap := do
  let url ← deref d.url
  pure ([("url", GoVal.str url)]
    ++ optStrField "sizing" d.sizing
    ++ optStrField "margin" d.margin)

/-- `buildDatadogLogStreamDefinition`. -/
def buildDatadogLogStreamDefinition (m : TMap) : Except GoError LogStreamDefinition := do
  let logset ← asStr (aget m "logset")
  let d : LogStreamDefinition := { type := some LOG_STREAM_WIDGET, logset := some logset }
  let d := match asStrOk (aget m "query") with
    | some v => if v = "" then d else { d with query := some v }
    | none => d
  let d ← match asListOk (aget m "columns") with
    | some l =>
      if l.isEmpty then pure d
      else do
        let cs ← l.mapM (fun x => asStr (some x))
        pure { d with columns := some cs }
    | none => pure d
  let d := match asStrOk (aget m "title") with
    | some v => if v = "" then d else { d with title := some v }
    | none => d
  let d := match asStrOk (aget m "title_size") with
    | some v => if v = "" then d else { d with titleSize := some v }
    | none => d
  let d := match asStrOk (aget m "title_align") with
    | some v => if v = "" then d else { d with titleAlign := some v }
    | none => d
  let d := match asIMapOk (aget m "time") with
    | some tm => if tm.isEmpty then d else { d with time := some (buildDatadogWidgetTime tm) }
    | none => d
  pure d

/-- `buildTerraformLogStreamDefinition`. -/
def buildTerraformLogStreamDefinition (d : LogStreamDefinition) : Except GoError TMap := do
  let logset ← deref d.logset
  let base : TMap := [("logset", .str logset)]
  let base := base ++ optStrField "query" d.query
  let base := match d.columns with
    | some l => base ++ [("columns", GoVal.strList l)]
    | none => base
  let base := base ++ optStrField "title" d.title
    ++ optStrField "title_size" d.titleSize
    ++ optStrField "title_align" d.titleAlign
  let base := match d.time with
    | some t => base ++ [("time", GoVal.smap (buildTerraformWidgetTime t))]
    | none => base
  pure base

/-!
## Query-fragment codecs (`buildDatadogProcessQuery`,
`buildTerraformProcessQuery`, `buildDatadogApmOrLogQuery`,
`buildTerraformApmOrLogQuery`)
-/

/-- `buildDatadogProcessQuery` (every read is comma-ok except the
`filter_by` elements, which use unchecked string assertions). -/
def buildDatadogProcessQuery (m : TMap) : Except GoError WidgetProcessQuery := do
  let q : WidgetProcessQuery := {}
  let q := match asStrOk (aget m "metric") with
    | some v => if v = "" then q else { q with metric := some v }
    | none => q
  let q := match asStrOk (aget m "search_by") with
    | some v => if v = "" then q else { q with searchBy := some v }
    | none => q
  let q ← match asListOk (aget m "filter_by") with
    | some l =>
      if l.isEmpty then pure q
      else do
        let fbs ← l.mapM (fun x => asStr (some x))
        pure { q with filterBy := some fbs }
    | none => pure q
  let q := match asIntOk (aget m "limit") with
    | some v => if v = 0 then q else { q with limit := some v }
    | none => q
  pure q

/-- `buildTerraformProcessQuery`. -/
def buildTerraformProcessQuery (q : WidgetProcessQuery) : TMap :=
  (optStrField "metric" q.metric)
    ++ optStrField "search_by" q.searchBy
    ++ (match q.filterBy with
        | some l => [("filter_by", GoVal.strList l)]
        | none => [])
    ++ optIntField "limit" q.limit

/-- The per-element body of the `group_by` loop in
`buildDatadogApmOrLogQuery`: unchecked assertions on the element map and
its `facet`; comma-ok `limit`; a comma-ok `map[string]string` assertion for
`sort`, whose entries are read by plain indexing (a missing key yields the
empty string). -/
def buildDatadogApmOrLogQueryGroupBy (v : GoVal) : Except GoError ApmOrLogQueryGroupBy := do
  let gm ← asIMap (some v)
  let facet ← asStr (aget gm "facet")
  let gb : ApmOrLogQueryGroupBy := { facet := some facet }
  let gb := match asIntOk (aget gm "limit") with
    | some v => if v = 0 then gb else { gb with limit := some v }
    | none => gb
  let gb := match asSMapOk (aget gm "sort") with
    | some sm =>
      if sm.isEmpty then gb
      else
        let srt : ApmOrLogQueryGroupBySort :=
          { aggregation := some ((aget sm "aggregation").getD "")
            order := some ((aget sm "order").getD "") }
        let srt := if (aget sm "facet").getD "" = "" then srt
          else { srt with facet := some ((aget sm "facet").getD "") }
        { gb with sort := some srt }
    | none => gb
  pure gb

/-- `buildDatadogApmOrLogQuery`: unchecked assertions on `index`, the
`compute` map, its `aggregation` and its `interval`; the parsed interval is
kept only when `ParseInt` succeeds. -/
def buildDatadogApmOrLogQuery (m : TMap) : Except GoError WidgetApmOrLogQuery := do
  let index ← asStr (aget m "index")
  let cm ← asIMap (aget m "compute")
  let agg ← asStr (aget cm "aggregation")
  let compute : ApmOrLogQueryCompute := { aggregation := some agg }
  let compute := match asStrOk (aget cm "facet") with
    | some v => if v = "" then compute else { compute with facet := some v }
    | none => compute
  let intervalStr ← asStr (aget cm "interval")
  let compute := match parseInt64 intervalStr with
    | some v => { compute with interval := some v }
    | none => compute
  let q : WidgetApmOrLogQuery := { index := some index, compute := some compute }
  let q ← match asIMapOk (aget m "search") with
    | some sm =>
      if sm.isEmpty then pure q
      else do
        let sq ← asStr (aget sm "query")
        pure { q with search := some { query := some sq } }
    | none => pure q
  let q ← match asListOk (aget m "group_by") with
    | some gl =>
      if gl.isEmpty then pure q
      else do
        let gbs ← gl.mapM buildDatadogApmOrLogQueryGroupBy
        pure { q with groupBy := some gbs }
    | none => pure q
  pure q

/-- The per-element body of the `group_by` loop in
`buildTerraformApmOrLogQuery` (the `sort` entry is built as a
`map[string]string`). -/
def buildTerraformApmOrLogQueryGroupBy (gb : ApmOrLogQueryGroupBy) : Except GoError TMap := do
  let facet ← deref gb.facet
  let base : TMap := [("facet", .str facet)]
  let base := base ++ optIntField "limit" gb.limit
  match gb.sort with
  | some srt => do
      let agg ← deref srt.aggregation
      let ord ← deref srt.order
      let sm : List (String × String) := [("aggregation", agg), ("order", ord)]
      let sm := match srt.facet with
        | some f => sm ++ [("facet", f)]
        | none => sm
      pure (base ++ [("sort", GoVal.smap sm)])
  | none => pure base

/-- `buildTerraformApmOrLogQuery`.  Note: the `group_by` value is stored as
`&terraformGroupBys`, a `*[]map[string]interface{}`. -/
def buildTerraformApmOrLogQuery (q : WidgetApmOrLogQuery) : Except GoError TMap := do
  let index ← deref q.index
  let compute ← deref q.compute
  let agg ← deref compute.aggregation
  let cm : TMap := [("aggregation", .str agg)]
  let cm := cm ++ optStrField "facet" compute.facet
  let cm := match compute.interval with
    | some n => cm ++ [("interval", GoVal.str (formatInt n))]
    | none => cm
  let base : TMap := [("index", .str index), ("compute", .imap cm)]
  let base ← match q.search with
    | some s => do
        let sq ← deref s.query
        pure (base ++ [("search", GoVal.imap [("query", .str sq)])])
    | none => pure base
  match q.groupBy with
  | some gbs => do
      let tgbs ← gbs.mapM buildTerraformApmOrLogQueryGroupBy
      pure (base ++ [("group_by", GoVal.ptrMapsList tgbs)])
  | none => pure base

/-!
## Timeseries request codec (`buildDatadogTimeseriesRequests`,
`buildTerraformTimeseriesRequests`)

The decoder's `else if` chain over the query alternatives is written as one
helper per link, each falling through to the next.
-/

/-- Last link of the request dispatch chain: `process_query`. -/
def buildDatadogTimeseriesRequestProcess (rm : TMap) (base : TimeseriesRequest) :
    Except GoError TimeseriesRequest :=
  match asListOk (aget rm "process_query") with
  | some (x :: _) => do
      let pm ← asIMap (some x)
      let pq ← buildDatadogProcessQuery pm
      pure { base with processQuery := some pq }
  | _ => pure base

/-- Third link of the request dispatch chain: `log_query`. -/
def buildDatadogTimeseriesRequestLog (rm : TMap) (base : TimeseriesRequest) :
    Except GoError TimeseriesRequest :=
  match asListOk (aget rm "log_query") with
  | some (x :: _) => do
      let lm ← asIMap (some x)
      let lq ← buildDatadogApmOrLogQuery lm
      pure { base with logQuery := some lq }
  | _ => buildDatadogTimeseriesRequestProcess rm base

/-- Second link of the request dispatch chain: `apm_query`. -/
def buildDatadogTimeseriesRequestApm (rm : TMap) (base : TimeseriesRequest) :
    Except GoError TimeseriesRequest :=
  match asListOk (aget rm "apm_query") with
  | some (x :: _) => do
      let am ← asIMap (some x)
      let aq ← buildDatadogApmOrLogQuery am
      pure { base with apmQuery := some aq }
  | _ => buildDatadogTimeseriesRequestLog rm base

/-- First link of the request dispatch chain: the metric string `q`. -/
def buildDatadogTimeseriesRequestQuery (rm : TMap) (base : TimeseriesRequest) :
    Except GoError TimeseriesRequest :=
  match asStrOk (aget rm "q") with
  | some qs =>
    if qs = "" then buildDatadogTimeseriesRequestApm rm base
    else pure { base with metricQuery := some qs }
  | none => buildDatadogTimeseriesRequestApm rm base

/-- The loop body of `buildDatadogTimeseriesRequests` (unchecked map
assertion on the request element, then the dispatch chain, then
`display_type`). -/
def buildDatadogTimeseriesRequest (v : GoVal) : Except GoError TimeseriesRequest := do
  let rm ← asIMap (some v)
  let r ← buildDatadogTimeseriesRequestQuery rm {}
  let r := match asStrOk (aget rm "display_type") with
    | some v => if v = "" then r else { r with displayType := some v }
    | none => r
  pure r

/-- `buildDatadogTimeseriesRequests`. -/
def buildDatadogTimeseriesRequests (vs : List GoVal) : Except GoError (List TimeseriesRequest) :=
  vs.mapM buildDatadogTimeseriesRequest

/-- The loop body of `buildTerraformTimeseriesRequests` (first non-nil
query alternative wins, then `display_type`). -/
def buildTerraformTimeseriesRequest (r : TimeseriesRequest) : Except GoError TMap := do
  let base : TMap ← match r.metricQuery with
    | some v => pure [("q", GoVal.str v)]
    | none => match r.apmQuery with
      | some aq => do
          let tq ← buildTerraformApmOrLogQuery aq
          pure [("apm_query", GoVal.mapsList [tq])]
      | none => match r.logQuery with
        | some lq => do
            let tq ← buildTerraformApmOrLogQuery lq
            pure [("log_query", GoVal.mapsList [tq])]
        | none => match r.processQuery with
          | some pq => pure [("process_query", GoVal.mapsList [buildTerraformProcessQuery pq])]
          | none => pure []
  let base := base ++ optStrField "display_type" r.displayType
  pure base

/-- `buildTerraformTimeseriesRequests` (returns a
`*[]map[string]interface{}`). -/
def buildTerraformTimeseriesRequests (rs : List TimeseriesRequest) :
    Except GoError (List TMap) :=
  rs.mapM buildTerraformTimeseriesRequest

/-- `buildDatadogTimeseriesDefinition` (the `request` read is an unchecked
`[]interface{}` assertion). -/
def buildDatadogTimeseriesDefinition (m : TMap) : Except GoError TimeseriesDefinition := do
  let rl ← asList (aget m "request")
  let reqs ← buildDatadogTimeseriesRequests rl
  let d : TimeseriesDefinition := { type := some TIMESERIES_WIDGET, requests := reqs }
  let d ← match asListOk (aget m "marker") with
    | some l =>
      if l.isEmpty then pure d
      else do
        let ms ← buildDatadogWidgetMarkers l
        pure { d with markers := some ms }
    | none => pure d
  let d := match asStrOk (aget m "title") with
    | some v => if v = "" then d else { d with title := some v }
    | none => d
  let d := match asStrOk (aget m "title_size") with
    | some v => if v = "" then d else { d with titleSize := some v }
    | none => d
  let d := match asStrOk (aget m "title_align") with
    | some v => if v = "" then d else { d with titleAlign := some v }
    | none => d
  let d := match asIMapOk (aget m "time") with
    | some tm => if tm.isEmpty then d else { d with time := some (buildDatadogWidgetTime tm) }
    | none => d
  pure d

/-- `buildTerraformTimeseriesDefinition`.  Note: `request` is stored as the
`*[]map[string]interface{}` returned by `buildTerraformTimeseriesRequests`,
and `marker` as the `*[]map[string]string` returned by
`buildTerraformWidgetMarkers`. -/
def buildTerraformTimeseriesDefinition (d : TimeseriesDefinition) : Except GoError TMap := do
  let reqs ← buildTerraformTimeseriesRequests d.requests
  let base : TMap := [("request", GoVal.ptrMapsList reqs)]
  let base ← match d.markers with
    | some ms => do
        let tms ← buildTerraformWidgetMarkers ms
        pure (base ++ [("marker", GoVal.ptrSMapsList tms)])
    | none => pure base
  let base := base ++ optStrField "title" d.title
    ++ optStrField "title_size" d.titleSize
    ++ optStrField "title_align" d.titleAlign
  let base := match d.time with
    | some t => base ++ [("time", GoVal.smap (buildTerraformWidgetTime t))]
    | none => base
  pure base

/-!
## Layout codec (`buildDatadogWidgetLayout`, `buildTerraformWidgetLayout`)

The source parses each field with `strconv.ParseFloat(_, 64)` and silently
drops the field on parse failure; the encoder formats with
`strconv.FormatFloat(v, 'f', -1, 64)`.  IEEE-754 binary64 arithmetic is
outside this embedding, so the model keeps the accepted decimal strings and
checks only the syntactic success of the parse; no theorem in this file
relies on the numeric values (see the C7 entry of the results).
-/

/-- Syntactic model of `strconv.ParseFloat` acceptance for plain decimal
forms: optional sign, then digits, an optional fractional part and an
optional exponent (`ParseFloat` accepts further forms — hex floats, `Inf`,
`NaN` — which no layout value in scope exercises). -/
def goFloatSyntaxOk (s : String) : Bool :=
  let isDigits := fun (cs : List Char) => !cs.isEmpty && cs.all fun c => (digitVal c).isSome
  let afterSign := fun (cs : List Char) =>
    match cs with
    | '+' :: rest => rest
    | '-' :: rest => rest
    | rest => rest
  let splitExp := fun (cs : List Char) =>
    match cs.splitOn 'e', cs.splitOn 'E' with
    | [mant, ex], _ => some (mant, ex)
    | _, [mant, ex] => some (mant, ex)
    | [_], [_] => some (cs, [])
    | _, _ => none
  match splitExp (afterSign s.data) with
  | none => false
  | some (mant, ex) =>
    let mantOk := match mant.splitOn '.' with
      | [intPart] => isDigits intPart
      | [intPart, frac] =>
        (isDigits intPart && (frac.isEmpty || isDigits frac)) ||
        (intPart.isEmpty && isDigits frac)
      | _ => false
    mantOk && (ex.isEmpty || isDigits (afterSign ex))

/-- `buildDatadogWidgetLayout` (field order x, y, height, width as in the
source; a value that fails the parse is silently dropped). -/
def buildDatadogWidgetLayout (m : TMap) : WidgetLayout :=
  let lay : WidgetLayout := {}
  let lay := match asStrOk (aget m "x") with
    | some v => if v ≠ "" && goFloatSyntaxOk v then { lay with x := some v } else lay
    | none => lay
  let lay := match asStrOk (aget m "y") with
    | some v => if v ≠ "" && goFloatSyntaxOk v then { lay with y := some v } else lay
    | none => lay
  let lay := match asStrOk (aget m "height") with
    | some v => if v ≠ "" && goFloatSyntaxOk v then { lay with height := some v } else lay
    | none => lay
  let lay := match asStrOk (aget m "width") with
    | some v => if v ≠ "" && goFloatSyntaxOk v then { lay with width := some v } else lay
    | none => lay
  lay

/-- `buildTerraformWidgetLayout` (returns a `map[string]string`; formatting
a stored value is the identity in this string-level model). -/
def buildTerraformWidgetLayout (lay : WidgetLayout) : List (String × String) :=
  (match lay.x with | some v => [("x", v)] | none => [])
    ++ (match lay.y with | some v => [("y", v)] | none => [])
    ++ (match lay.height with | some v => [("height", v)] | none => [])
    ++ (match lay.width with | some v => [("width", v)] | none => [])

/-!
## Widget dispatch codecs (`buildDatadogWidget`, `buildDatadogWidgets`,
`buildDatadogGroupDefinition` and the Terraform direction)

The group variant makes these mutually recursive; recursion is on the size
of the configuration value (decode) and of the widget tree (encode).
-/

theorem aget_sizeOf {α : Type} [SizeOf α] {m : List (String × α)} {k : String} {v : α}
    (h : aget m k = some v) : sizeOf v < sizeOf m := by
  induction m with
  | nil => simp [aget] at h
  | cons p rest ih =>
    obtain ⟨k', v'⟩ := p
    simp only [aget] at h
    by_cases hk : k' = k
    · rw [if_pos hk] at h
      injection h with h
      subst h
      simp
      omega
    · rw [if_neg hk] at h
      have := ih h
      simp
      omega

/-!
The non-group links of the `else if` dispatch chain of
`buildDatadogWidget`, one definition per link in source order — note,
alert graph, alert value, check status, free text, iframe, image,
log stream, timeseries; each falls through to the next.  A present kind
whose first element is not a mapping ends the chain with no definition
set; when no kind field holds a non-empty `[]interface{}`, the
no-definition error is returned.
-/

/-- Dispatch link 10: `timeseries_definition`, else the no-definition
error. -/
def buildDatadogWidgetDefTimeseries (w : TMap) : Except GoError (Option DatadogDefinition) :=
  match aget w "timeseries_definition" with
  | some (.list (.imap dm :: _)) => do
      let dd ← buildDatadogTimeseriesDefinition dm
      pure (some (.timeseries dd))
  | some (.list (_ :: _)) => pure none
  | _ => .error (.goErr "Failed to find valid definition in widget configuration")

/-- Dispatch link 9: `log_stream_definition`. -/
def buildDatadogWidgetDefLogStream (w : TMap) : Except GoError (Option DatadogDefinition) :=
  match aget w "log_stream_definition" with
  | some (.list (.imap dm :: _)) => do
      let dd ← buildDatadogLogStreamDefinition dm
      pure (some (.logStream dd))
  | some (.list (_ :: _)) => pure none
  | _ => buildDatadogWidgetDefTimeseries w

/-- Dispatch link 8: `image_definition`. -/
def buildDatadogWidgetDefImage (w : TMap) : Except GoError (Option DatadogDefinition) :=
  match aget w "image_definition" with
  | some (.list (.imap dm :: _)) => do
      let dd ← buildDatadogImageDefinition dm
      pure (some (.image dd))
  | some (.list (_ :: _)) => pure none
  | _ => buildDatadogWidgetDefLogStream w

/-- Dispatch link 7: `iframe_definition`. -/
def buildDatadogWidgetDefIframe (w : TMap) : Except GoError (Option DatadogDefinition) :=
  match aget w "iframe_definition" with
  | some (.list (.imap dm :: _)) => do
      let dd ← buildDatadogIframeDefinition dm
      pure (some (.iframe dd))
  | some (.list (_ :: _)) => pure none
  | _ => buildDatadogWidgetDefImage w

/-- Dispatch link 6: `free_text_definition`. -/
def buildDatadogWidgetDefFreeText (w : TMap) : Except GoError (Option DatadogDefinition) :=
  match aget w "free_text_definition" with
  | some (.list (.imap dm :: _)) => do
      let dd ← buildDatadogFreeTextDefinition dm
      pure (some (.freeText dd))
  | some (.list (_ :: _)) => pure none
  | _ => buildDatadogWidgetDefIframe w

/-- Dispatch link 5: `check_status_definition`. -/
def buildDatadogWidgetDefCheckStatus (w : TMap) : Except GoError (Option DatadogDefinition) :=
  match aget w "check_status_definition" with
  | some (.list (.imap dm :: _)) => do
      let dd ← buildDatadogCheckStatusDefinition dm
      pure (some (.checkStatus dd))
  | some (.list (_ :: _)) => pure none
  | _ => buildDatadogWidgetDefFreeText w

/-- Dispatch link 4: `alert_value_definition`. -/
def buildDatadogWidgetDefAlertValue (w : TMap) : Except GoError (Option DatadogDefinition) :=
  match aget w "alert_value_definition" with
  | some (.list (.imap dm :: _)) => do
      let dd ← buildDatadogAlertValueDefinition dm
      pure (some (.alertValue dd))
  | some (.list (_ :: _)) => pure none
  | _ => buildDatadogWidgetDefCheckStatus w

/-- Dispatch link 3: `alert_graph_definition`. -/
def buildDatadogWidgetDefAlertGraph (w : TMap) : Except GoError (Option DatadogDefinition) :=
  match aget w "alert_graph_definition" with
  | some (.list (.imap dm :: _)) => do
      let dd ← buildDatadogAlertGraphDefinition dm
      pure (some (.alertGraph dd))
  | some (.list (_ :: _)) => pure none
  | _ => buildDatadogWidgetDefAlertValue w

/-- Dispatch link 2: `note_definition` (the link after the group one). -/
def buildDatadogNonGroupDefinition (w : TMap) : Except GoError (Option DatadogDefinition) :=
  match aget w "note_definition" with
  | some (.list (.imap dm :: _)) => do
      let dd ← buildDatadogNoteDefinition dm
      pure (some (.note dd))
  | some (.list (_ :: _)) => pure none
  | _ => buildDatadogWidgetDefAlertGraph w

/-- The layout part of `buildDatadogWidget`: the comma-ok
`map[string]interface{}` assertion with the non-empty check, then the
layout decoder. -/
def widgetLayoutOf (w : TMap) : Option WidgetLayout :=
  match asIMapOk (aget w "layout") with
  | some lm => if lm.isEmpty then none else some (buildDatadogWidgetLayout lm)
  | none => none

mutual
/-- `buildDatadogWidget`: decodes the optional layout, then tests the
definition-kind fields in the source order; the recursive `group` link
comes first, the non-group links are in
`buildDatadogNonGroupDefinition`. -/
def buildDatadogWidget (w : TMap) : Except GoError BoardWidget :=
  let lay : Option WidgetLayout := widgetLayoutOf w
  match hg : aget w "group_definition" with
  | some (.list (.imap gm :: _)) => do
      let gd ← buildDatadogGroupDefinition gm
      pure (.mk (some (.group gd)) lay)
  | some (.list (_ :: _)) => pure (.mk none lay)
  | _ => do
      let dd ← buildDatadogNonGroupDefinition w
      pure (.mk dd lay)
termination_by sizeOf w
decreasing_by
  all_goals simp_wf
  all_goals (try omega)
  all_goals (have hsz := aget_sizeOf hg; simp at hsz; omega)

/-- `buildDatadogWidgets`: unchecked map assertion on each element, then
the widget decoder; the first error aborts the whole list. -/
def buildDatadogWidgets (vs : List GoVal) : Except GoError (List BoardWidget) :=
  match vs with
  | [] => .ok []
  | .imap wm :: rest => do
      let w ← buildDatadogWidget wm
      let ws ← buildDatadogWidgets rest
      pure (w :: ws)
  | _ :: _ => .error .panic
termination_by sizeOf vs
decreasing_by
  all_goals simp_wf
  all_goals omega

/-- `buildDatadogGroupDefinition`: decodes the children with the shared
widget-list decoder (no depth or kind check of its own), then the layout
type and title. -/
def buildDatadogGroupDefinition (m : TMap) : Except GoError GroupDefinition := do
  let widgets ← match hw : aget m "widget" with
    | some (.list vs) =>
      if vs.isEmpty then pure ([] : List BoardWidget) else buildDatadogWidgets vs
    | _ => pure ([] : List BoardWidget)
  let layoutType : Option String := match asStrOk (aget m "layout_type") with
    | some v => if v = "" then none else some v
    | none => none
  let title : Option String := match asStrOk (aget m "title") with
    | some v => if v = "" then none else some v
    | none => none
  pure (.mk (some GROUP_WIDGET) layoutType title widgets)
termination_by sizeOf m
decreasing_by
  simp_wf
  have := aget_sizeOf hw
  simp at this
  omega
end

theorem BoardWidget.definition_group_sizeOf {w : BoardWidget} {g : GroupDefinition}
    (h : w.definition = some (.group g)) : sizeOf g < sizeOf w := by
  cases w with
  | mk d lay =>
    simp only [BoardWidget.definition] at h
    subst h
    simp
    try omega

theorem GroupDefinition.widgets_sizeOf (g : GroupDefinition) :
    sizeOf g.widgets < sizeOf g := by
  cases g with
  | mk t lt ti ws =>
    simp [GroupDefinition.widgets]
    try omega

mutual
/-- `buildTerraformWidget`: encodes the layout, obtains the kind
discriminator via `GetWidgetType`, then switches on it; each supported case
type-asserts the definition (a panic on mismatch) and invokes the per-kind
encoder; an unmatched discriminator yields the unsupported-widget-type
error, whose message carries the discriminator. -/
def buildTerraformWidget (w : BoardWidget) : Except GoError TMap := do
  let layPart : TMap := match w.layout with
    | some lay => [("layout", GoVal.smap (buildTerraformWidgetLayout lay))]
    | none => []
  let widgetType ← GetWidgetType w
  if widgetType = GROUP_WIDGET then
    match hd : w.definition with
    | some (.group g) => do
        let td ← buildTerraformGroupDefinition g
        pure (layPart ++ [("group_definition", GoVal.mapsList [td])])
    | _ => .error .panic
  else if widgetType = NOTE_WIDGET then
    match w.definition with
    | some (.note d) => do
        let td ← buildTerraformNoteDefinition d
        pure (layPart ++ [("note_definition", GoVal.mapsList [td])])
    | _ => .error .panic
  else if widgetType = ALERT_GRAPH_WIDGET then
    match w.definition with
    | some (.alertGraph d) => do
        let td ← buildTerraformAlertGraphDefinition d
        pure (layPart ++ [("alert_graph_definition", GoVal.mapsList [td])])
    | _ => .error .panic
  else if widgetType = ALERT_VALUE_WIDGET then
    match w.definition with
    | some (.alertValue d) => do
        let td ← buildTerraformAlertValueDefinition d
        pure (layPart ++ [("alert_value_definition", GoVal.mapsList [td])])
    | _ => .error .panic
  else if widgetType = CHECK_STATUS_WIDGET then
    match w.definition with
    | some (.checkStatus d) => do
        let td ← buildTerraformCheckStatusDefinition d
        pure (layPart ++ [("check_status_definition", GoVal.mapsList [td])])
    | _ => .error .panic
  else if widgetType = FREE_TEXT_WIDGET then
    match w.definition with
    | some (.freeText d) => do
        let td ← buildTerraformFreeTextDefinition d
        pure (layPart ++ [("free_text_definition", GoVal.mapsList [td])])
    | _ => .error .panic
  else if widgetType = IFRAME_WIDGET then
    match w.definition with
    | some (.iframe d) => do
        let td ← buildTerraformIframeDefinition d
        pure (layPart ++ [("iframe_definition", GoVal.mapsList [td])])
    | _ => .error .panic
  else if widgetType = IMAGE_WIDGET then
    match w.definition with
    | some (.image d) => do
        let td ← buildTerraformImageDefinition d
        pure (layPart ++ [("image_definition", GoVal.mapsList [td])])
    | _ => .error .panic
  else if widgetType = LOG_STREAM_WIDGET then
    match w.definition with
    | some (.logStream d) => do
        let td ← buildTerraformLogStreamDefinition d
        pure (layPart ++ [("log_stream_definition", GoVal.mapsList [td])])
    | _ => .error .panic
  else if widgetType = TIMESERIES_WIDGET then
    match w.definition with
    | some (.timeseries d) => do
        let td ← buildTerraformTimeseriesDefinition d
        pure (layPart ++ [("timeseries_definition", GoVal.mapsList [td])])
    | _ => .error .panic
  else
    .error (.goErr ("Unsupported widget type: " ++ widgetType ++ " - " ++ TIMESERIES_WIDGET))
termination_by sizeOf w
decreasing_by
  all_goals simp_wf
  all_goals (try omega)
  all_goals (try exact BoardWidget.definition_group_sizeOf hd)
  all_goals (try exact GroupDefinition.widgets_sizeOf g)

/-- `buildTerraformWidgets` (the dashboard-level list): the first child
error aborts the whole list. -/
def buildTerraformWidgets (ws : List BoardWidget) : Except GoError (List TMap) :=
  match ws with
  | [] => .ok []
  | w :: rest => do
      let tw ← buildTerraformWidget w
      let rest' ← buildTerraformWidgets rest
      pure (tw :: rest')
termination_by sizeOf ws
decreasing_by
  all_goals simp_wf
  all_goals omega

/-- The child loop of `buildTerraformGroupDefinition`: the source discards
the child's error (`newGroupWidget, _ := buildTerraformWidget(...)`) and
appends the nil map (modelled as the empty map); a panic still
propagates. -/
def buildTerraformGroupChildren (ws : List BoardWidget) : Except GoError (List TMap) :=
  match ws with
  | [] => .ok []
  | w :: rest =>
    match buildTerraformWidget w with
    | .ok tw => do
        let rest' ← buildTerraformGroupChildren rest
        pure (tw :: rest')
    | .error .panic => .error .panic
    | .error (.goErr _) => do
        let rest' ← buildTerraformGroupChildren rest
        pure ([] :: rest')
termination_by sizeOf ws
decreasing_by
  all_goals simp_wf
  all_goals omega

/-- `buildTerraformGroupDefinition`: encodes the children (errors
discarded, see `buildTerraformGroupChildren`), then the layout type and
title via the comma-ok getters. -/
def buildTerraformGroupDefinition (g : GroupDefinition) : Except GoError TMap := do
  let children ← buildTerraformGroupChildren g.widgets
  let base : TMap := [("widget", GoVal.mapsList children)]
  let base := match g.layoutType with
    | some v => base ++ [("layout_type", GoVal.str v)]
    | none => base
  let base := match g.title with
    | some v => base ++ [("title", GoVal.str v)]
    | none => base
  pure base
termination_by sizeOf g
decreasing_by
  all_goals simp_wf
  all_goals (try omega)
  all_goals (try exact GroupDefinition.widgets_sizeOf g)
  all_goals (try exact BoardWidget.definition_group_sizeOf hd)
end

/-!
## Dashboard-level helpers and CRUD adapter

`resourceDatadogDashboardRead` and `resourceDatadogDashboardExists` are
modelled as functions of the remote fetch outcome (`GetBoard` is the
external client): the caller supplies either the fetched board or the
client's error string.
-/

/-- `buildTerraformNotifyList`. -/
def buildTerraformNotifyList (l : List String) : List String :=
  l.map fun h => h

/-- The per-variable body of `buildTerraformTemplateVariables` (comma-ok
getters; output is a `map[string]string`). -/
def buildTerraformTemplateVariable (tv : TemplateVariable) : List (String × String) :=
  (match tv.name with | some v => [("name", v)] | none => [])
    ++ (match tv.prefixField with | some v => [("prefix", v)] | none => [])
    ++ (match tv.defaultField with | some v => [("default", v)] | none => [])

/-- `buildTerraformTemplateVariables`. -/
def buildTerraformTemplateVariables (tvs : List TemplateVariable) :
    List (List (String × String)) :=
  tvs.map buildTerraformTemplateVariable

/-- The per-variable body of `buildDatadogTemplateVariables` (comma-ok
string assertions with non-empty checks). -/
def buildDatadogTemplateVariable (v : GoVal) : Except GoError TemplateVariable := do
  let m ← asIMap (some v)
  let tv : TemplateVariable := {}
  let tv := match asStrOk (aget m "name") with
    | some s => if s = "" then tv else { tv with name := some s }
    | none => tv
  let tv := match asStrOk (aget m "prefix") with
    | some s => if s = "" then tv else { tv with prefixField := some s }
    | none => tv
  let tv := match asStrOk (aget m "default") with
    | some s => if s = "" then tv else { tv with defaultField := some s }
    | none => tv
  pure tv

/-- `buildDatadogTemplateVariables`. -/
def buildDatadogTemplateVariables (vs : List GoVal) : Except GoError (List TemplateVariable) :=
  vs.mapM buildDatadogTemplateVariable

/-- Prefix test on character lists (`pat` begins `cs`). -/
def charsBeginWith : List Char → List Char → Bool
  | [], _ => true
  | _ :: _, [] => false
  | a :: as, b :: bs => a = b && charsBeginWith as bs

/-- Substring occurrence on character lists. -/
def charsHaveSub (pat : List Char) : List Char → Bool
  | [] => pat.isEmpty
  | c :: rest => charsBeginWith pat (c :: rest) || charsHaveSub pat rest

/-- Model of `strings.Contains(s, pat)`. -/
def strContains (s pat : String) : Bool :=
  charsHaveSub pat.data s.data

/-- The local state written by the Read operation's `d.Set` calls. -/
structure ReadState where
  title : String
  layoutType : String
  description : String
  isReadOnly : Bool
  widget : List TMap
  templateVariable : List (List (String × String))
  notifyList : List String
deriving Repr

/-- `resourceDatadogDashboardRead`, as a function of the `GetBoard`
outcome: every fetch error is returned to the caller unchanged; on success
the board is converted back to the local representation (a conversion
failure also aborts the Read). -/
def resourceDatadogDashboardRead (fetch : Except String Board) : Except GoError ReadState :=
  match fetch with
  | .error e => .error (.goErr e)
  | .ok dashboard => do
      let terraformWidgets ← buildTerraformWidgets dashboard.widgets
      .ok
        { title := dashboard.title.getD ""
          layoutType := dashboard.layoutType.getD ""
          description := dashboard.description.getD ""
          isReadOnly := dashboard.isReadOnly.getD false
          widget := terraformWidgets
          templateVariable := buildTerraformTemplateVariables dashboard.templateVariables
          notifyList := buildTerraformNotifyList dashboard.notifyList }

/-- `resourceDatadogDashboardExists`, as a function of the `GetBoard`
outcome; the Go signature returns `(bool, error)`, modelled as the pair
with an optional error. -/
def resourceDatadogDashboardExists (fetch : Except String Board) : Bool × Option String :=
  match fetch with
  | .ok _ => (true, none)
  | .error e =>
    if strContains e "404 Not Found" then (false, none)
    else (false, some e)

/-!
## Schema model

The `getXSchema` functions of the source build `schema.Schema` descriptor
trees; they are embedded as data here.  `schemaEntriesOk` /
`conformsToSchema` model the surrounding framework's validation of a
configuration block against a schema (an external collaborator): a block
conforms only if every key it uses is declared in the schema, each value
matches the declared type (element resources recursively), `MaxItems` is
respected, and every required field is present.
-/

/-- `schema.ValueType`. -/
inductive SchemaType where
  | string | bool | int | float | list | map
deriving Repr, DecidableEq

mutual
/-- `schema.Schema`: value type, required flag, optional `MaxItems`,
optional element descriptor. -/
inductive Schema where
  | mk (stype : SchemaType) (required : Bool) (maxItems : Option Nat)
       (elem : Option SchemaElem)

/-- The `Elem` of a schema: a nested resource (field map) or a scalar
element schema. -/
inductive SchemaElem where
  | res (fields : List (String × Schema))
  | scalar (stype : SchemaType)
end

/-- Scalar type matching of the framework's validation: strings for string
fields, bools for bool fields, ints for int fields; floats arrive as their
decimal strings (or ints). -/
def schemaScalarMatches : SchemaType → GoVal → Bool
  | .string, .str _ => true
  | .bool, .bool _ => true
  | .int, .int _ => true
  | .float, .str _ => true
  | .float, .int _ => true
  | _, _ => false

/-- Presence of every required field (part of the framework's
validation). -/
def schemaRequiredPresent (fields : List (String × Schema)) (m : TMap) : Bool :=
  match fields with
  | [] => true
  | (k, .mk _ required _ _) :: rest =>
    (!required || (aget m k).isSome) && schemaRequiredPresent rest m

mutual
/-- Does value `v` match schema `s`?  (Model of the framework's validation
of one field value.) -/
def schemaValMatches (s : Schema) (v : GoVal) : Bool :=
  match s with
  | .mk stype _ maxItems elem =>
    match stype, v with
    | .list, .list xs =>
      (match maxItems with | some n => xs.length ≤ n | none => true) &&
      (match elem with
       | some (.res fields) => schemaListOk fields xs
       | some (.scalar t) => xs.all fun x => schemaScalarMatches t x
       | none => false)
    | .map, .imap mm =>
      (match elem with
       | some (.res fields) => schemaEntriesOk fields mm && schemaRequiredPresent fields mm
       | _ => true)
    | .map, .smap _ => true
    | t, x => schemaScalarMatches t x
termination_by (sizeOf s, sizeOf v)
decreasing_by
  all_goals simp_wf
  all_goals (apply Prod.Lex.left; omega)

/-- Every entry of the block uses a declared key and matches its schema
(an undeclared key is a validation error). -/
def schemaEntriesOk (fields : List (String × Schema)) (entries : TMap) : Bool :=
  match entries with
  | [] => true
  | (k, v) :: rest =>
    (match hs : aget fields k with
     | some s => schemaValMatches s v
     | none => false) && schemaEntriesOk fields rest
termination_by (sizeOf fields, sizeOf entries)
decreasing_by
  all_goals simp_wf
  · have := aget_sizeOf hs
    apply Prod.Lex.left
    omega
  · apply Prod.Lex.right
    omega

/-- Every element of a list block is a mapping conforming to the element
resource. -/
def schemaListOk (fields : List (String × Schema)) (xs : List GoVal) : Bool :=
  match xs with
  | [] => true
  | .imap mm :: rest =>
    schemaEntriesOk fields mm && schemaRequiredPresent fields mm && schemaListOk fields rest
  | _ :: _ => false
termination_by (sizeOf fields, sizeOf xs)
decreasing_by
  all_goals simp_wf
  all_goals (apply Prod.Lex.right; omega)
end

/-- Model of the framework's validation of a configuration block against a
resource schema. -/
def conformsToSchema (fields : List (String × Schema)) (m : TMap) : Bool :=
  schemaEntriesOk fields m && schemaRequiredPresent fields m

/-- `getTemplateVariableSchema`. -/
def getTemplateVariableSchema : List (String × Schema) :=
  [("name", .mk .string true none none),
   ("prefix", .mk .string false none none),
   ("default", .mk .string false none none)]

/-- `getWidgetLayoutSchema`. -/
def getWidgetLayoutSchema : List (String × Schema) :=
  [("x", .mk .float true none none),
   ("y", .mk .float true none none),
   ("width", .mk .float true none none),
   ("height", .mk .float true none none)]

/-- `getWidgetTimeSchema`. -/
def getWidgetTimeSchema : List (String × Schema) :=
  [("live_span", .mk .string false none none)]

/-- `getWidgetMarkerSchema`. -/
def getWidgetMarkerSchema : List (String × Schema) :=
  [("value", .mk .string true none none),
   ("display_type", .mk .string false none none),
   ("label", .mk .string false none none)]

/-- `getNoteDefinitionSchema`. -/
def getNoteDefinitionSchema : List (String × Schema) :=
  [("content", .mk .string true none none),
   ("background_color", .mk .string false none none),
   ("font_size", .mk .string false none none),
   ("text_align", .mk .string false none none),
   ("show_tick", .mk .bool false none none),
   ("tick_pos", .mk .string false none none),
   ("tick_edge", .mk .string false none none)]

/-- `getAlertGraphDefinitionSchema`. -/
def getAlertGraphDefinitionSchema : List (String × Schema) :=
  [("alert_id", .mk .string true none none),
   ("viz_type", .mk .string true none none),
   ("title", .mk .string false none none),
   ("title_size", .mk .string false none none),
   ("title_align", .mk .string false none none),
   ("time", .mk .map false none (some (.res getWidgetTimeSchema)))]

/-- `getAlertValueDefinitionSchema`. -/
def getAlertValueDefinitionSchema : List (String × Schema) :=
  [("alert_id", .mk .string true none none),
   ("precision", .mk .int false none none),
   ("unit", .mk .string false none none),
   ("text_align", .mk .string false none none),
   ("title", .mk .string false none none),
   ("title_size", .mk .string false none none),
   ("title_align", .mk .string false none none)]

/-- `getCheckStatusDefinitionSchema`. -/
def getCheckStatusDefinitionSchema : List (String × Schema) :=
  [("check", .mk .string true none none),
   ("grouping", .mk .string true none none),
   ("group", .mk .string false none none),
   ("group_by", .mk .list false none (some (.scalar .string))),
   ("tags", .mk .list false none (some (.scalar .string))),
   ("title", .mk .string false none none),
   ("title_size", .mk .string false none none),
   ("title_align", .mk .string false none none),
   ("time", .mk .map false none (some (.res getWidgetTimeSchema)))]

/-- `getFreeTextDefinitionSchema`. -/
def getFreeTextDefinitionSchema : List (String × Schema) :=
  [("text", .mk .string true none none),
   ("color", .mk .string false none none),
   ("font_size", .mk .string false none none),
   ("text_align", .mk .string false none none)]

/-- `getIframeDefinitionSchema`. -/
def getIframeDefinitionSchema : List (String × Schema) :=
  [("url", .mk .string true none none)]

/-- `getImageDefinitionSchema`. -/
def getImageDefinitionSchema : List (String × Schema) :=
  [("url", .mk .string true none none),
   ("sizing", .mk .string false none none),
   ("margin", .mk .string false none none)]

/-- `getLogStreamDefinitionSchema`. -/
def getLogStreamDefinitionSchema : List (String × Schema) :=
  [("logset", .mk .string true none none),
   ("query", .mk .string false none none),
   ("columns", .mk .list false none (some (.scalar .string))),
   ("title", .mk .string false none none),
   ("title_size", .mk .string false none none),
   ("title_align", .mk .string false none none),
   ("time", .mk .map false none (some (.res getWidgetTimeSchema)))]

/-- `getMetricQuerySchema`. -/
def getMetricQuerySchema : Schema := .mk .string false none none

/-- `getApmOrLogQuerySchema`. -/
def getApmOrLogQuerySchema : Schema :=
  .mk .list false (some 1) (some (.res
    [("index", .mk .string true none none),
     ("compute", .mk .map true none (some (.res
       [("aggregation", .mk .string true none none),
        ("facet", .mk .string false none none),
        ("interval", .mk .int false none none)]))),
     ("search", .mk .map false none (some (.res
       [("query", .mk .string true none none)]))),
     ("group_by", .mk .list false none (some (.res
       [("facet", .mk .string true none none),
        ("limit", .mk .int false none none),
        ("sort", .mk .map false none (some (.res
          [("aggregation", .mk .string true none none),
           ("order", .mk .string true none none),
           ("facet", .mk .string false none none)])))])))]))

/-- `getProcessQuerySchema`. -/
def getProcessQuerySchema : Schema :=
  .mk .list false (some 1) (some (.res
    [("metric", .mk .string true none none),
     ("search_by", .mk .string false none none),
     ("filter_by", .mk .list false none (some (.scalar .string))),
     ("limit", .mk .int false none none)]))

/-- `getTimeseriesRequestSchema`. -/
def getTimeseriesRequestSchema : List (String × Schema) :=
  [("q", getMetricQuerySchema),
   ("apm_query", getApmOrLogQuerySchema),
   ("log_query", getApmOrLogQuerySchema),
   ("process_query", getProcessQuerySchema),
   ("display_type", .mk .string false none none)]

/-- `getTimeseriesDefinitionSchema`. -/
def getTimeseriesDefinitionSchema : List (String × Schema) :=
  [("request", .mk .list false none (some (.res getTimeseriesRequestSchema))),
   ("marker", .mk .list false none (some (.res getWidgetMarkerSchema))),
   ("title", .mk .string false none none),
   ("title_size", .mk .string false none none),
   ("title_align", .mk .string false none none),
   ("show_legend", .mk .bool false none none),
   ("legend_size", .mk .string false none none),
   ("time", .mk .map false none (some (.res getWidgetTimeSchema)))]

/-- `getNonGroupWidgetSchema`: the schema for a widget that is not a group
— the layout plus one optional block per non-group definition kind;
`group_definition` is deliberately not among its keys. -/
def getNonGroupWidgetSchema : List (String × Schema) :=
  [("layout", .mk .map false none (some (.res getWidgetLayoutSchema))),
   ("note_definition", .mk .list false (some 1) (some (.res getNoteDefinitionSchema))),
   ("alert_graph_definition", .mk .list false (some 1) (some (.res getAlertGraphDefinitionSchema))),
   ("alert_value_definition", .mk .list false (some 1) (some (.res getAlertValueDefinitionSchema))),
   ("check_status_definition", .mk .list false (some 1) (some (.res getCheckStatusDefinitionSchema))),
   ("free_text_definition", .mk .list false (some 1) (some (.res getFreeTextDefinitionSchema))),
   ("iframe_definition", .mk .list false (some 1) (some (.res getIframeDefinitionSchema))),
   ("image_definition", .mk .list false (some 1) (some (.res getImageDefinitionSchema))),
   ("log_stream_definition", .mk .list false (some 1) (some (.res getLogStreamDefinitionSchema))),
   ("timeseries_definition", .mk .list false (some 1) (some (.res getTimeseriesDefinitionSchema)))]

/-- `getGroupDefinitionSchema`: the children list is bound to the
non-group widget schema. -/
def getGroupDefinitionSchema : List (String × Schema) :=
  [("widget", .mk .list true none (some (.res getNonGroupWidgetSchema))),
   ("layout_type", .mk .string true none none),
   ("title", .mk .string false none none)]

/-- `getWidgetSchema`: the non-group schema extended with the
`group_definition` block. -/
def getWidgetSchema : List (String × Schema) :=
  getNonGroupWidgetSchema ++
    [("group_definition", .mk .list false (some 1) (some (.res getGroupDefinitionSchema)))]

/-!
## Substring facts used by the error-message claims
-/

theorem charsBeginWith_self_append (t b : List Char) :
    charsBeginWith t (t ++ b) = true := by
  induction t with
  | nil => rfl
  | cons c cs ih => simp [charsBeginWith, ih]

theorem charsHaveSub_append_left (t a rest : List Char)
    (h : charsHaveSub t rest = true) : charsHaveSub t (a ++ rest) = true := by
  induction a with
  | nil => simpa using h
  | cons c cs ih => simp [charsHaveSub, ih]

theorem charsHaveSub_of_beginWith (t cs : List Char)
    (h : charsBeginWith t cs = true) : charsHaveSub t cs = true := by
  cases cs with
  | nil =>
    cases t with
    | nil => rfl
    | cons c cs' => simp [charsBeginWith] at h
  | cons c rest => simp [charsHaveSub, h]

/-- A string occurs in any string of the shape `a ++ t ++ b`. -/
theorem strContains_mid (a t b : String) :
    strContains (a ++ t ++ b) t = true := by
  show charsHaveSub t.data (a ++ t ++ b).data = true
  have hdata : (a ++ t ++ b).data = a.data ++ (t.data ++ b.data) := by
    simp [String.data_append]
  rw [hdata]
  exact charsHaveSub_append_left _ _ _
    (charsHaveSub_of_beginWith _ _ (charsBeginWith_self_append t.data b.data))

/-!
## C1 — not-found handling of the Read operation
-/

/-- C1 (counterexample): the claim says the Read operation treats a
"not found" fetch outcome as "resource absent" without returning a fatal
error; but on the fetch error `"API error 404 Not Found"` the Read
operation returns exactly that error to the caller (there is no not-found
test anywhere in `resourceDatadogDashboardRead`). -/
theorem C1_read_returns_not_found_error :
    resourceDatadogDashboardRead (.error "API error 404 Not Found") =
      .error (.goErr "API error 404 Not Found") := rfl

/-- C1 (amended): the Read operation does not distinguish the not-found
condition: every fetch error, the not-found one included, is propagated
unchanged to the caller; the not-found distinction is made only by the
Exists operation. -/
theorem C1_read_propagates_every_fetch_error :
    ∀ e : String, resourceDatadogDashboardRead (.error e) = .error (.goErr e) :=
  fun _ => rfl

/-!
## C8 — the Exists operation
-/

/-- C8: `resourceDatadogDashboardExists` returns true exactly when the
fetch succeeds; on a fetch error whose text contains `"404 Not Found"` it
returns false with no error; every other fetch error is propagated with a
false result. -/
theorem C8_exists_not_found_dispatch :
    ∀ (b : Board) (e : String),
      resourceDatadogDashboardExists (.ok b) = (true, none) ∧
      (strContains e "404 Not Found" = true →
        resourceDatadogDashboardExists (.error e) = (false, none)) ∧
      (strContains e "404 Not Found" = false →
        resourceDatadogDashboardExists (.error e) = (false, some e)) := by
  intro b e
  refine ⟨rfl, fun h => ?_, fun h => ?_⟩
  · simp [resourceDatadogDashboardExists, h]
  · simp [resourceDatadogDashboardExists, h]

/-- C8 (witness): the three branches at concrete fetch outcomes. -/
theorem C8_exists_not_found_dispatch_witness :
    resourceDatadogDashboardExists (.ok {}) = (true, none) ∧
    resourceDatadogDashboardExists (.error "API error 404 Not Found") = (false, none) ∧
    resourceDatadogDashboardExists (.error "API error 403 Forbidden") =
      (false, some "API error 403 Forbidden") :=
  ⟨(C8_exists_not_found_dispatch {} "x").1,
   (C8_exists_not_found_dispatch {} "API error 404 Not Found").2.1 (by decide),
   (C8_exists_not_found_dispatch {} "API error 403 Forbidden").2.2 (by decide)⟩

/-!
## C10 — the unchecked `interval` assertion of the APM/log query decoder
-/

/-- C10: on a configuration map whose required `index` and
`compute.aggregation` are present and well-typed but whose compute mapping
has no `"interval"` key (or holds a non-string value there), the APM/log
query decoder faults (the unchecked `.(string)` assertion panics) instead
of returning an error or treating the field as absent. -/
theorem C10_apm_query_interval_fault :
    ∀ (m cm : TMap) (i a : String),
      aget m "index" = some (.str i) →
      aget m "compute" = some (.imap cm) →
      aget cm "aggregation" = some (.str a) →
      asStrOk (aget cm "interval") = none →
      buildDatadogApmOrLogQuery m = .error .panic := by
  intro m cm i a hidx hcomp hagg hint
  simp only [buildDatadogApmOrLogQuery, hidx, hcomp, hagg, asStr, asIMap, bind, Except.bind]
  cases hv : aget cm "interval" with
  | none => rfl
  | some v =>
    cases v
    case str s =>
      rw [hv] at hint
      simp [asStrOk] at hint
    all_goals rfl

/-- C10 (witness): the fault at a concrete map with `index` and
`compute.aggregation` present and `interval` absent. -/
theorem C10_apm_query_interval_fault_witness :
    buildDatadogApmOrLogQuery
      [("index", .str "apm-index"), ("compute", .imap [("aggregation", .str "count")])] =
      .error .panic :=
  C10_apm_query_interval_fault
    [("index", .str "apm-index"), ("compute", .imap [("aggregation", .str "count")])]
    [("aggregation", .str "count")] "apm-index" "count" rfl rfl rfl rfl

/-!
## C4 — widget encode dispatch on the kind discriminator
-/

/-- The layout entry of an encoded widget (the first store of
`buildTerraformWidget`). -/
def widgetLayoutPart (w : BoardWidget) : TMap :=
  match w.layout with
  | some lay => [("layout", GoVal.smap (buildTerraformWidgetLayout lay))]
  | none => []

/-- The discriminators `buildTerraformWidget` has switch cases for. -/
def supportedWidgetTypes : List String :=
  [GROUP_WIDGET, NOTE_WIDGET, ALERT_GRAPH_WIDGET, ALERT_VALUE_WIDGET,
   CHECK_STATUS_WIDGET, FREE_TEXT_WIDGET, IFRAME_WIDGET, IMAGE_WIDGET,
   LOG_STREAM_WIDGET, TIMESERIES_WIDGET]

/-- C4: widget encode switches on the `GetWidgetType` discriminator: a
widget whose discriminator is outside the supported catalog fails with the
unsupported-widget-type error, whose message contains that discriminator;
for each supported discriminator the matching per-kind encoder runs and its
output lands under that kind's field name. -/
theorem C4_encode_discriminator_dispatch :
    ∀ (w : BoardWidget),
      (∀ t, GetWidgetType w = .ok t → t ∉ supportedWidgetTypes →
        buildTerraformWidget w =
          .error (.goErr ("Unsupported widget type: " ++ t ++ " - " ++ TIMESERIES_WIDGET)) ∧
        strContains ("Unsupported widget type: " ++ t ++ " - " ++ TIMESERIES_WIDGET) t = true) ∧
      (∀ d dm, w.definition = some (.group d) → buildTerraformGroupDefinition d = .ok dm →
        buildTerraformWidget w = .ok (widgetLayoutPart w ++ [("group_definition", GoVal.mapsList [dm])])) ∧
      (∀ d dm, w.definition = some (.note d) → buildTerraformNoteDefinition d = .ok dm →
        buildTerraformWidget w = .ok (widgetLayoutPart w ++ [("note_definition", GoVal.mapsList [dm])])) ∧
      (∀ d dm, w.definition = some (.alertGraph d) → buildTerraformAlertGraphDefinition d = .ok dm →
        buildTerraformWidget w = .ok (widgetLayoutPart w ++ [("alert_graph_definition", GoVal.mapsList [dm])])) ∧
      (∀ d dm, w.definition = some (.alertValue d) → buildTerraformAlertValueDefinition d = .ok dm →
        buildTerraformWidget w = .ok (widgetLayoutPart w ++ [("alert_value_definition", GoVal.mapsList [dm])])) ∧
      (∀ d dm, w.definition = some (.checkStatus d) → buildTerraformCheckStatusDefinition d = .ok dm →
        buildTerraformWidget w = .ok (widgetLayoutPart w ++ [("check_status_definition", GoVal.mapsList [dm])])) ∧
      (∀ d dm, w.definition = some (.freeText d) → buildTerraformFreeTextDefinition d = .ok dm →
        buildTerraformWidget w = .ok (widgetLayoutPart w ++ [("free_text_definition", GoVal.mapsList [dm])])) ∧
      (∀ d dm, w.definition = some (.iframe d) → buildTerraformIframeDefinition d = .ok dm →
        buildTerraformWidget w = .ok (widgetLayoutPart w ++ [("iframe_definition", GoVal.mapsList [dm])])) ∧
      (∀ d dm, w.definition = some (.image d) → buildTerraformImageDefinition d = .ok dm →
        buildTerraformWidget w = .ok (widgetLayoutPart w ++ [("image_definition", GoVal.mapsList [dm])])) ∧
      (∀ d dm, w.definition = some (.logStream d) → buildTerraformLogStreamDefinition d = .ok dm →
        buildTerraformWidget w = .ok (widgetLayoutPart w ++ [("log_stream_definition", GoVal.mapsList [dm])])) ∧
      (∀ d dm, w.definition = some (.timeseries d) → buildTerraformTimeseriesDefinition d = .ok dm →
        buildTerraformWidget w = .ok (widgetLayoutPart w ++ [("timeseries_definition", GoVal.mapsList [dm])])) := by
  intro w
  refine ⟨?_, ?_, ?_, ?_, ?_, ?_, ?_, ?_, ?_, ?_, ?_⟩
  · intro t hGet hns
    have h1 : ¬ (t = GROUP_WIDGET) := fun h => hns (by simp [supportedWidgetTypes, h])
    have h2 : ¬ (t = NOTE_WIDGET) := fun h => hns (by simp [supportedWidgetTypes, h])
    have h3 : ¬ (t = ALERT_GRAPH_WIDGET) := fun h => hns (by simp [supportedWidgetTypes, h])
    have h4 : ¬ (t = ALERT_VALUE_WIDGET) := fun h => hns (by simp [supportedWidgetTypes, h])
    have h5 : ¬ (t = CHECK_STATUS_WIDGET) := fun h => hns (by simp [supportedWidgetTypes, h])
    have h6 : ¬ (t = FREE_TEXT_WIDGET) := fun h => hns (by simp [supportedWidgetTypes, h])
    have h7 : ¬ (t = IFRAME_WIDGET) := fun h => hns (by simp [supportedWidgetTypes, h])
    have h8 : ¬ (t = IMAGE_WIDGET) := fun h => hns (by simp [supportedWidgetTypes, h])
    have h9 : ¬ (t = LOG_STREAM_WIDGET) := fun h => hns (by simp [supportedWidgetTypes, h])
    have h10 : ¬ (t = TIMESERIES_WIDGET) := fun h => hns (by simp [supportedWidgetTypes, h])
    constructor
    · simp only [buildTerraformWidget, hGet, bind, Except.bind]
      rw [if_neg h1, if_neg h2, if_neg h3, if_neg h4, if_neg h5, if_neg h6, if_neg h7,
        if_neg h8, if_neg h9, if_neg h10]
    · have hmid := strContains_mid "Unsupported widget type: " t (" - " ++ TIMESERIES_WIDGET)
      simpa [String.append_assoc] using hmid
  · intro d dm hd he
    simp only [buildTerraformWidget, GetWidgetType, hd, bind, Except.bind, if_true]
    split <;> simp_all [widgetLayoutPart, pure, Except.pure]
  · intro d dm hd he
    simp only [buildTerraformWidget, GetWidgetType, hd, bind, Except.bind, he, widgetLayoutPart]
    rfl
  · intro d dm hd he
    simp only [buildTerraformWidget, GetWidgetType, hd, bind, Except.bind, he, widgetLayoutPart]
    rfl
  · intro d dm hd he
    simp only [buildTerraformWidget, GetWidgetType, hd, bind, Except.bind, he, widgetLayoutPart]
    rfl
  · intro d dm hd he
    simp only [buildTerraformWidget, GetWidgetType, hd, bind, Except.bind, he, widgetLayoutPart]
    rfl
  · intro d dm hd he
    simp only [buildTerraformWidget, GetWidgetType, hd, bind, Except.bind, he, widgetLayoutPart]
    rfl
  · intro d dm hd he
    simp only [buildTerraformWidget, GetWidgetType, hd, bind, Except.bind, he, widgetLayoutPart]
    rfl
  · intro d dm hd he
    simp only [buildTerraformWidget, GetWidgetType, hd, bind, Except.bind, he, widgetLayoutPart]
    rfl
  · intro d dm hd he
    simp only [buildTerraformWidget, GetWidgetType, hd, bind, Except.bind, he, widgetLayoutPart]
    rfl
  · intro d dm hd he
    simp only [buildTerraformWidget, GetWidgetType, hd, bind, Except.bind, he, widgetLayoutPart]
    rfl

/-- C4 (witness): an event-stream widget — a kind with no switch case —
fails with the unsupported-widget-type error carrying `"event_stream"`,
and a concrete note widget routes to the note encoder and field. -/
theorem C4_encode_discriminator_dispatch_witness :
    buildTerraformWidget (.mk (some (.eventStream { query := some "q" })) none) =
      .error (.goErr "Unsupported widget type: event_stream - timeseries") ∧
    buildTerraformWidget (.mk (some (.note { type := some "note", content := some "hello" })) none) =
      .ok [("note_definition", GoVal.mapsList [[("content", .str "hello")]])] := by
  constructor
  · exact ((C4_encode_discriminator_dispatch
      (.mk (some (.eventStream { query := some "q" })) none)).1 "event_stream" rfl (by decide)).1
  · exact (C4_encode_discriminator_dispatch
      (.mk (some (.note { type := some "note", content := some "hello" })) none)).2.2.1
      { type := some "note", content := some "hello" } [("content", .str "hello")] rfl rfl

/-!
## C6 — request-slot query dispatch: `q`, then `apm_query`, then
`log_query`, then `process_query`; the first populated alternative wins and
the rest are silently left unset
-/

theorem asIMap_ok {x : GoVal} {m : TMap} (h : asIMap (some x) = .ok m) : x = .imap m := by
  cases x <;> simp [asIMap] at h <;> simp [h]

/-- C6: in a timeseries request slot the alternatives are tested in the
fixed order `q` (non-empty metric string), `apm_query`, `log_query`,
`process_query`; the first populated one determines the single query field
set in the result; a request populating several alternatives is accepted
without error, every lower-priority alternative left unset. -/
theorem C6_request_dispatch_order :
    ∀ (rm : TMap),
      (∀ qs, asStrOk (aget rm "q") = some qs → qs ≠ "" →
        ∃ r, buildDatadogTimeseriesRequest (.imap rm) = .ok r ∧
          r.metricQuery = some qs ∧ r.apmQuery = none ∧ r.logQuery = none ∧
          r.processQuery = none) ∧
      (∀ x l am aq, (∀ qs, asStrOk (aget rm "q") = some qs → qs = "") →
        asListOk (aget rm "apm_query") = some (x :: l) →
        asIMap (some x) = .ok am → buildDatadogApmOrLogQuery am = .ok aq →
        ∃ r, buildDatadogTimeseriesRequest (.imap rm) = .ok r ∧
          r.metricQuery = none ∧ r.apmQuery = some aq ∧ r.logQuery = none ∧
          r.processQuery = none) ∧
      (∀ x l lm lq, (∀ qs, asStrOk (aget rm "q") = some qs → qs = "") →
        (∀ y ys, asListOk (aget rm "apm_query") ≠ some (y :: ys)) →
        asListOk (aget rm "log_query") = some (x :: l) →
        asIMap (some x) = .ok lm → buildDatadogApmOrLogQuery lm = .ok lq →
        ∃ r, buildDatadogTimeseriesRequest (.imap rm) = .ok r ∧
          r.metricQuery = none ∧ r.apmQuery = none ∧ r.logQuery = some lq ∧
          r.processQuery = none) ∧
      (∀ x l pm pq, (∀ qs, asStrOk (aget rm "q") = some qs → qs = "") →
        (∀ y ys, asListOk (aget rm "apm_query") ≠ some (y :: ys)) →
        (∀ y ys, asListOk (aget rm "log_query") ≠ some (y :: ys)) →
        asListOk (aget rm "process_query") = some (x :: l) →
        asIMap (some x) = .ok pm → buildDatadogProcessQuery pm = .ok pq →
        ∃ r, buildDatadogTimeseriesRequest (.imap rm) = .ok r ∧
          r.metricQuery = none ∧ r.apmQuery = none ∧ r.logQuery = none ∧
          r.processQuery = some pq) := by
  intro rm
  have hdisp : ∀ (base : TimeseriesRequest),
      (match asStrOk (aget rm "display_type") with
        | some v => if v = "" then base else { base with displayType := some v }
        | none => base).metricQuery = base.metricQuery ∧
      (match asStrOk (aget rm "display_type") with
        | some v => if v = "" then base else { base with displayType := some v }
        | none => base).apmQuery = base.apmQuery ∧
      (match asStrOk (aget rm "display_type") with
        | some v => if v = "" then base else { base with displayType := some v }
        | none => base).logQuery = base.logQuery ∧
      (match asStrOk (aget rm "display_type") with
        | some v => if v = "" then base else { base with displayType := some v }
        | none => base).processQuery = base.processQuery := by
    intro base
    cases hdt : asStrOk (aget rm "display_type") with
    | none => simp
    | some v =>
      by_cases hv : v = "" <;> simp [hv]
  refine ⟨?_, ?_, ?_, ?_⟩
  · intro qs hq hne
    simp only [buildDatadogTimeseriesRequest, asIMap, bind, Except.bind,
      buildDatadogTimeseriesRequestQuery, hq, if_neg hne]
    exact ⟨_, rfl, (hdisp _).1, (hdisp _).2.1, (hdisp _).2.2.1, (hdisp _).2.2.2⟩
  · intro x l am aq hq hapm ham haq
    have hqskip : buildDatadogTimeseriesRequestQuery rm {} = buildDatadogTimeseriesRequestApm rm {} := by
      unfold buildDatadogTimeseriesRequestQuery
      cases hqs : asStrOk (aget rm "q") with
      | none => rfl
      | some qs => simp [hq qs hqs]
    simp only [buildDatadogTimeseriesRequest, asIMap, bind, Except.bind, hqskip,
      buildDatadogTimeseriesRequestApm, hapm]
    obtain rfl := asIMap_ok ham
    simp only [asIMap, haq, pure, Except.pure]
    exact ⟨_, rfl, (hdisp _).1, (hdisp _).2.1, (hdisp _).2.2.1, (hdisp _).2.2.2⟩
  · intro x l lm lq hq hnapm hlog hlm hlq
    have hqskip : buildDatadogTimeseriesRequestQuery rm {} = buildDatadogTimeseriesRequestApm rm {} := by
      unfold buildDatadogTimeseriesRequestQuery
      cases hqs : asStrOk (aget rm "q") with
      | none => rfl
      | some qs => simp [hq qs hqs]
    have haskip : buildDatadogTimeseriesRequestApm rm {} = buildDatadogTimeseriesRequestLog rm {} := by
      unfold buildDatadogTimeseriesRequestApm
      cases has : asListOk (aget rm "apm_query") with
      | none => rfl
      | some ll =>
        cases ll with
        | nil => rfl
        | cons y ys => exact absurd has (hnapm y ys)
    simp only [buildDatadogTimeseriesRequest, asIMap, bind, Except.bind, hqskip, haskip,
      buildDatadogTimeseriesRequestLog, hlog]
    obtain rfl := asIMap_ok hlm
    simp only [asIMap, hlq, pure, Except.pure]
    exact ⟨_, rfl, (hdisp _).1, (hdisp _).2.1, (hdisp _).2.2.1, (hdisp _).2.2.2⟩
  · intro x l pm pq hq hnapm hnlog hproc hpm hpq
    have hqskip : buildDatadogTimeseriesRequestQuery rm {} = buildDatadogTimeseriesRequestApm rm {} := by
      unfold buildDatadogTimeseriesRequestQuery
      cases hqs : asStrOk (aget rm "q") with
      | none => rfl
      | some qs => simp [hq qs hqs]
    have haskip : buildDatadogTimeseriesRequestApm rm {} = buildDatadogTimeseriesRequestLog rm {} := by
      unfold buildDatadogTimeseriesRequestApm
      cases has : asListOk (aget rm "apm_query") with
      | none => rfl
      | some ll =>
        cases ll with
        | nil => rfl
        | cons y ys => exact absurd has (hnapm y ys)
    have hlskip : buildDatadogTimeseriesRequestLog rm {} = buildDatadogTimeseriesRequestProcess rm {} := by
      unfold buildDatadogTimeseriesRequestLog
      cases hls : asListOk (aget rm "log_query") with
      | none => rfl
      | some ll =>
        cases ll with
        | nil => rfl
        | cons y ys => exact absurd hls (hnlog y ys)
    simp only [buildDatadogTimeseriesRequest, asIMap, bind, Except.bind, hqskip, haskip,
      hlskip, buildDatadogTimeseriesRequestProcess, hproc]
    obtain rfl := asIMap_ok hpm
    simp only [asIMap, hpq, pure, Except.pure]
    exact ⟨_, rfl, (hdisp _).1, (hdisp _).2.1, (hdisp _).2.2.1, (hdisp _).2.2.2⟩

/-- C6 (witness): a request populating both `q` and `apm_query` decodes
without error to the metric query alone — the `apm_query` value (here even
a malformed one) is never examined. -/
theorem C6_request_dispatch_order_witness :
    ∃ r, buildDatadogTimeseriesRequest
        (.imap [("q", .str "avg:system.load{*}"), ("apm_query", .list [.str "junk"])]) = .ok r ∧
      r.metricQuery = some "avg:system.load{*}" ∧ r.apmQuery = none ∧ r.logQuery = none ∧
      r.processQuery = none :=
  (C6_request_dispatch_order
    [("q", .str "avg:system.load{*}"), ("apm_query", .list [.str "junk"])]).1
    "avg:system.load{*}" rfl (by decide)

/-!
## C2 — per-kind codec inversion

The typed-side well-formedness predicates record the documented omission
conventions: the kind tag is set, required fields are present, optional
strings are not the empty string (encode would emit them but decode treats
them as absent) and optional ints are not zero.
-/

/-- Well-formed note definitions. -/
def NoteWF (d : NoteDefinition) : Prop :=
  d.type = some NOTE_WIDGET ∧ (∃ c, d.content = some c) ∧
  d.backgroundColor ≠ some "" ∧ d.fontSize ≠ some "" ∧ d.textAlign ≠ some "" ∧
  d.tickPos ≠ some "" ∧ d.tickEdge ≠ some ""

/-- Well-formed alert-value definitions. -/
def AlertValueWF (d : AlertValueDefinition) : Prop :=
  d.type = some ALERT_VALUE_WIDGET ∧ (∃ a, d.alertId = some a) ∧
  d.precision ≠ some 0 ∧ d.unit ≠ some "" ∧ d.textAlign ≠ some "" ∧
  d.title ≠ some "" ∧ d.titleSize ≠ some "" ∧ d.titleAlign ≠ some ""

/-- APM/log queries on which the codec pair is actually inverse: index and
compute present, aggregation present, facet not empty, an interval in the
int64 range present (decode faults without one, C10), a search carrying its
query when present, and no group-by (an encoded group-by is dropped on
decode — see the C2 counterexample). -/
def ApmOrLogQueryWF (q : WidgetApmOrLogQuery) : Prop :=
  (∃ i, q.index = some i) ∧
  (∃ c, q.compute = some c ∧ (∃ a, c.aggregation = some a) ∧ c.facet ≠ some "" ∧
    (∃ n, c.interval = some n ∧ -(2 ^ 63) ≤ n ∧ n < 2 ^ 63)) ∧
  (q.search = none ∨ ∃ sq, q.search = some { query := some sq }) ∧
  q.groupBy = none

theorem note_roundtrip (d : NoteDefinition) (h : NoteWF d) :
    (buildTerraformNoteDefinition d).bind buildDatadogNoteDefinition = .ok d := by
  obtain ⟨ht, ⟨c, hc⟩, hbg, hfs, hta, htp, hte⟩ := h
  obtain ⟨t, ct, bg, fs, ta, st, tp, te⟩ := d
  try simp only at ht hc hbg hfs hta htp hte
  subst ht hc
  rcases bg with _ | bg <;> rcases fs with _ | fs <;> rcases ta with _ | ta <;>
    rcases st with _ | st <;> rcases tp with _ | tp <;> rcases te with _ | te <;>
    simp_all [buildTerraformNoteDefinition, buildDatadogNoteDefinition, optStrField,
      optBoolField, deref, asStr, asStrOk, asBool, aget, bind, Except.bind, pure, Except.pure,
      NOTE_WIDGET]

theorem alertValue_roundtrip (d : AlertValueDefinition) (h : AlertValueWF d) :
    (buildTerraformAlertValueDefinition d).bind buildDatadogAlertValueDefinition = .ok d := by
  obtain ⟨ht, ⟨a, ha⟩, hp, hu, hta, hti, hts, htl⟩ := h
  obtain ⟨t, aid, pr, un, ta, ti, ts, tl⟩ := d
  try simp only at ht ha hp hu hta hti hts htl
  subst ht ha
  rcases pr with _ | pr <;> rcases un with _ | un <;> rcases ta with _ | ta <;>
    rcases ti with _ | ti <;> rcases ts with _ | ts <;> rcases tl with _ | tl <;>
    simp_all [buildTerraformAlertValueDefinition, buildDatadogAlertValueDefinition, optStrField,
      optIntField, deref, asStr, asStrOk, asIntOk, aget, bind, Except.bind, pure, Except.pure,
      ALERT_VALUE_WIDGET]

theorem apm_roundtrip (q : WidgetApmOrLogQuery) (h : ApmOrLogQueryWF q) :
    (buildTerraformApmOrLogQuery q).bind buildDatadogApmOrLogQuery = .ok q := by
  obtain ⟨⟨i, hi⟩, ⟨c, hc, ⟨a, ha⟩, hfac, ⟨n, hn, hn1, hn2⟩⟩, hsearch, hgb⟩ := h
  obtain ⟨qi, qc, qs, qg⟩ := q
  obtain ⟨ca, cf, ci⟩ := c
  try simp only at hi hc ha hfac hn hgb
  subst hi hc hgb
  try simp only at ha hn
  subst ha hn
  have hparse := @parseInt64_formatInt n (by omega) (by omega)
  rcases cf with _ | cf <;> rcases hsearch with hs | ⟨sq, hs⟩ <;>
    try simp only at hs <;> subst hs <;>
    simp_all [buildTerraformApmOrLogQuery, buildDatadogApmOrLogQuery, optStrField,
      deref, asStr, asStrOk, asIMap, asIMapOk, asListOk, aget, bind, Except.bind,
      pure, Except.pure]

/-- The concrete query that falsifies C2: a well-formed APM/log query with
one group-by clause. -/
def apmGroupByQuery : WidgetApmOrLogQuery :=
  { index := some "apm-index"
    compute := some { aggregation := some "count", interval := some 1 }
    groupBy := some [{ facet := some "service" }] }

/-- C2 (counterexample): for the well-formed APM/log query with a group-by
clause, decoding its encoding does not give the query back: the encoder
stores `group_by` as a `*[]map[string]interface{}`, whose decode-side
comma-ok `[]interface{}` assertion fails, so the group-by is silently
dropped. -/
theorem C2_apm_groupby_dropped :
    (buildTerraformApmOrLogQuery apmGroupByQuery).bind buildDatadogApmOrLogQuery ≠
      .ok apmGroupByQuery ∧
    (buildTerraformApmOrLogQuery apmGroupByQuery).bind buildDatadogApmOrLogQuery =
      .ok { apmGroupByQuery with groupBy := none } := by
  have heval : (buildTerraformApmOrLogQuery apmGroupByQuery).bind buildDatadogApmOrLogQuery =
      .ok { apmGroupByQuery with groupBy := none } := rfl
  refine ⟨?_, heval⟩
  rw [heval]
  intro hcon
  injection hcon with h
  have hgb := congrArg WidgetApmOrLogQuery.groupBy h
  simp [apmGroupByQuery] at hgb

/-- C2 (amended): the note and alert-value codec pairs are mutually
inverse on well-formed data, in both directions (maps in the encoders'
canonical form, the documented omission rules); the APM/log query codec
pair is inverse only on queries whose compute carries an int64 interval
and which have no group-by: an encoded group-by is dropped on decode
(slice-pointer type mismatch) and a missing interval faults the decoder
(C10). -/
theorem C2_codec_inversion_amended :
    (∀ d, NoteWF d → (buildTerraformNoteDefinition d).bind buildDatadogNoteDefinition = .ok d) ∧
    (∀ d m, NoteWF d → buildTerraformNoteDefinition d = .ok m →
      (buildDatadogNoteDefinition m).bind buildTerraformNoteDefinition = .ok m) ∧
    (∀ d, AlertValueWF d →
      (buildTerraformAlertValueDefinition d).bind buildDatadogAlertValueDefinition = .ok d) ∧
    (∀ d m, AlertValueWF d → buildTerraformAlertValueDefinition d = .ok m →
      (buildDatadogAlertValueDefinition m).bind buildTerraformAlertValueDefinition = .ok m) ∧
    (∀ q, ApmOrLogQueryWF q →
      (buildTerraformApmOrLogQuery q).bind buildDatadogApmOrLogQuery = .ok q) ∧
    (∀ q m, ApmOrLogQueryWF q → buildTerraformApmOrLogQuery q = .ok m →
      (buildDatadogApmOrLogQuery m).bind buildTerraformApmOrLogQuery = .ok m) := by
  refine ⟨note_roundtrip, ?_, alertValue_roundtrip, ?_, apm_roundtrip, ?_⟩
  · intro d m hwf henc
    have hrt := note_roundtrip d hwf
    rw [henc] at hrt
    have hdec : buildDatadogNoteDefinition m = .ok d := hrt
    rw [hdec]
    exact henc
  · intro d m hwf henc
    have hrt := alertValue_roundtrip d hwf
    rw [henc] at hrt
    have hdec : buildDatadogAlertValueDefinition m = .ok d := hrt
    rw [hdec]
    exact henc
  · intro q m hwf henc
    have hrt := apm_roundtrip q hwf
    rw [henc] at hrt
    have hdec : buildDatadogApmOrLogQuery m = .ok q := hrt
    rw [hdec]
    exact henc

/-- C2 (witness): the amended inversion at concrete well-formed values of
each of the three codecs, in both directions. -/
theorem C2_codec_inversion_amended_witness :
    ((buildTerraformNoteDefinition { type := some "note", content := some "hello" }).bind
        buildDatadogNoteDefinition = .ok { type := some "note", content := some "hello" }) ∧
    ((buildDatadogNoteDefinition [("content", .str "hello")]).bind
        buildTerraformNoteDefinition = .ok [("content", .str "hello")]) ∧
    ((buildTerraformAlertValueDefinition
        { type := some "alert_value", alertId := some "895605", precision := some 3 }).bind
        buildDatadogAlertValueDefinition =
      .ok { type := some "alert_value", alertId := some "895605", precision := some 3 }) ∧
    ((buildTerraformApmOrLogQuery
        { index := some "apm-index",
          compute := some { aggregation := some "count", interval := some 30 } }).bind
        buildDatadogApmOrLogQuery =
      .ok { index := some "apm-index",
            compute := some { aggregation := some "count", interval := some 30 } }) := by
  have hnote : NoteWF { type := some "note", content := some "hello" } :=
    ⟨rfl, ⟨"hello", rfl⟩, by simp, by simp, by simp, by simp, by simp⟩
  refine ⟨C2_codec_inversion_amended.1 _ hnote,
    C2_codec_inversion_amended.2.1 _ _ hnote rfl,
    C2_codec_inversion_amended.2.2.1 _
      ⟨rfl, ⟨"895605", rfl⟩, by simp, by simp, by simp, by simp, by simp, by simp⟩,
    C2_codec_inversion_amended.2.2.2.2.1 _
      ⟨⟨"apm-index", rfl⟩,
       ⟨_, rfl, ⟨"count", rfl⟩, by simp, ⟨30, rfl, by norm_num, by norm_num⟩⟩,
       Or.inl rfl, rfl⟩⟩

/-!
## C3 — widget decode dispatch
-/

/-- The no-definition error message. -/
def noDefMsg : String := "Failed to find valid definition in widget configuration"

/-- The definition-kind fields in the order the decoder tests them. -/
def widgetKindKeys : List String :=
  ["group_definition", "note_definition", "alert_graph_definition", "alert_value_definition",
   "check_status_definition", "free_text_definition", "iframe_definition", "image_definition",
   "log_stream_definition", "timeseries_definition"]

/-- The decoder's presence test fails for key `k`: its value is not a
non-empty `[]interface{}`. -/
def kindAbsent (w : TMap) (k : String) : Prop :=
  ∀ x l, aget w k ≠ some (.list (x :: l))


theorem link_skip_note (w : TMap) (h : kindAbsent w "note_definition") :
    buildDatadogNonGroupDefinition w = buildDatadogWidgetDefAlertGraph w := by
  unfold buildDatadogNonGroupDefinition
  cases hv : aget w "note_definition" with
  | none => rfl
  | some v =>
    cases v with
    | list xs =>
      cases xs with
      | nil => rfl
      | cons x l => exact absurd hv (h x l)
    | _ => rfl


theorem link_hit_note (w dm : TMap) (tl : List GoVal) (dd : NoteDefinition)
    (hv : aget w "note_definition" = some (.list (.imap dm :: tl)))
    (hdec : buildDatadogNoteDefinition dm = .ok dd) :
    buildDatadogNonGroupDefinition w = .ok (some (.note dd)) := by
  unfold buildDatadogNonGroupDefinition
  rw [hv]
  simp [hdec, bind, Except.bind, pure, Except.pure]


theorem link_skip_alert_graph (w : TMap) (h : kindAbsent w "alert_graph_definition") :
    buildDatadogWidgetDefAlertGraph w = buildDatadogWidgetDefAlertValue w := by
  unfold buildDatadogWidgetDefAlertGraph
  cases hv : aget w "alert_graph_definition" with
  | none => rfl
  | some v =>
    cases v with
    | list xs =>
      cases xs with
      | nil => rfl
      | cons x l => exact absurd hv (h x l)
    | _ => rfl


theorem link_hit_alert_graph (w dm : TMap) (tl : List GoVal) (dd : AlertGraphDefinition)
    (hv : aget w "alert_graph_definition" = some (.list (.imap dm :: tl)))
    (hdec : buildDatadogAlertGraphDefinition dm = .ok dd) :
    buildDatadogWidgetDefAlertGraph w = .ok (some (.alertGraph dd)) := by
  unfold buildDatadogWidgetDefAlertGraph
  rw [hv]
  simp [hdec, bind, Except.bind, pure, Except.pure]


theorem link_skip_alert_value (w : TMap) (h : kindAbsent w "alert_value_definition") :
    buildDatadogWidgetDefAlertValue w = buildDatadogWidgetDefCheckStatus w := by
  unfold buildDatadogWidgetDefAlertValue
  cases hv : aget w "alert_value_definition" with
  | none => rfl
  | some v =>
    cases v with
    | list xs =>
      cases xs with
      | nil => rfl
      | cons x l => exact absurd hv (h x l)
    | _ => rfl


theorem link_hit_alert_value (w dm : TMap) (tl : List GoVal) (dd : AlertValueDefinition)
    (hv : aget w "alert_value_definition" = some (.list (.imap dm :: tl)))
    (hdec : buildDatadogAlertValueDefinition dm = .ok dd) :
    buildDatadogWidgetDefAlertValue w = .ok (some (.alertValue dd)) := by
  unfold buildDatadogWidgetDefAlertValue
  rw [hv]
  simp [hdec, bind, Except.bind, pure, Except.pure]


theorem link_skip_check_status (w : TMap) (h : kindAbsent w "check_status_definition") :
    buildDatadogWidgetDefCheckStatus w = buildDatadogWidgetDefFreeText w := by
  unfold buildDatadogWidgetDefCheckStatus
  cases hv : aget w "check_status_definition" with
  | none => rfl
  | some v =>
    cases v with
    | list xs =>
      cases xs with
      | nil => rfl
      | cons x l => exact absurd hv (h x l)
    | _ => rfl


theorem link_hit_check_status (w dm : TMap) (tl : List GoVal) (dd : CheckStatusDefinition)
    (hv : aget w "check_status_definition" = some (.list (.imap dm :: tl)))
    (hdec : buildDatadogCheckStatusDefinition dm = .ok dd) :
    buildDatadogWidgetDefCheckStatus w = .ok (some (.checkStatus dd)) := by
  unfold buildDatadogWidgetDefCheckStatus
  rw [hv]
  simp [hdec, bind, Except.bind, pure, Except.pure]


theorem link_skip_free_text (w : TMap) (h : kindAbsent w "free_text_definition") :
    buildDatadogWidgetDefFreeText w = buildDatadogWidgetDefIframe w := by
  unfold buildDatadogWidgetDefFreeText
  cases hv : aget w "free_text_definition" with
  | none => rfl
  | some v =>
    cases v with
    | list xs =>
      cases xs with
      | nil => rfl
      | cons x l => exact absurd hv (h x l)
    | _ => rfl


theorem link_hit_free_text (w dm : TMap) (tl : List GoVal) (dd : FreeTextDefinition)
    (hv : aget w "free_text_definition" = some (.list (.imap dm :: tl)))
    (hdec : buildDatadogFreeTextDefinition dm = .ok dd) :
    buildDatadogWidgetDefFreeText w = .ok (some (.freeText dd)) := by
  unfold buildDatadogWidgetDefFreeText
  rw [hv]
  simp [hdec, bind, Except.bind, pure, Except.pure]


theorem link_skip_iframe (w : TMap) (h : kindAbsent w "iframe_definition") :
    buildDatadogWidgetDefIframe w = buildDatadogWidgetDefImage w := by
  unfold buildDatadogWidgetDefIframe
  cases hv : aget w "iframe_definition" with
  | none => rfl
  | some v =>
    cases v with
    | list xs =>
      cases xs with
      | nil => rfl
      | cons x l => exact absurd hv (h x l)
    | _ => rfl


theorem link_hit_iframe (w dm : TMap) (tl : List GoVal) (dd : IframeDefinition)
    (hv : aget w "iframe_definition" = some (.list (.imap dm :: tl)))
    (hdec : buildDatadogIframeDefinition dm = .ok dd) :
    buildDatadogWidgetDefIframe w = .ok (some (.iframe dd)) := by
  unfold buildDatadogWidgetDefIframe
  rw [hv]
  simp [hdec, bind, Except.bind, pure, Except.pure]


theorem link_skip_image (w : TMap) (h : kindAbsent w "image_definition") :
    buildDatadogWidgetDefImage w = buildDatadogWidgetDefLogStream w := by
  unfold buildDatadogWidgetDefImage
  cases hv : aget w "image_definition" with
  | none => rfl
  | some v =>
    cases v with
    | list xs =>
      cases xs with
      | nil => rfl
      | cons x l => exact absurd hv (h x l)
    | _ => rfl


theorem link_hit_image (w dm : TMap) (tl : List GoVal) (dd : ImageDefinition)
    (hv : aget w "image_definition" = some (.list (.imap dm :: tl)))
    (hdec : buildDatadogImageDefinition dm = .ok dd) :
    buildDatadogWidgetDefImage w = .ok (some (.image dd)) := by
  unfold buildDatadogWidgetDefImage
  rw [hv]
  simp [hdec, bind, Except.bind, pure, Except.pure]


theorem link_skip_log_stream (w : TMap) (h : kindAbsent w "log_stream_definition") :
    buildDatadogWidgetDefLogStream w = buildDatadogWidgetDefTimeseries w := by
  unfold buildDatadogWidgetDefLogStream
  cases hv : aget w "log_stream_definition" with
  | none => rfl
  | some v =>
    cases v with
    | list xs =>
      cases xs with
      | nil => rfl
      | cons x l => exact absurd hv (h x l)
    | _ => rfl


theorem link_hit_log_stream (w dm : TMap) (tl : List GoVal) (dd : LogStreamDefinition)
    (hv : aget w "log_stream_definition" = some (.list (.imap dm :: tl)))
    (hdec : buildDatadogLogStreamDefinition dm = .ok dd) :
    buildDatadogWidgetDefLogStream w = .ok (some (.logStream dd)) := by
  unfold buildDatadogWidgetDefLogStream
  rw [hv]
  simp [hdec, bind, Except.bind, pure, Except.pure]


theorem link_skip_timeseries (w : TMap) (h : kindAbsent w "timeseries_definition") :
    buildDatadogWidgetDefTimeseries w = .error (.goErr noDefMsg) := by
  unfold buildDatadogWidgetDefTimeseries
  cases hv : aget w "timeseries_definition" with
  | none => rfl
  | some v =>
    cases v with
    | list xs =>
      cases xs with
      | nil => rfl
      | cons x l => exact absurd hv (h x l)
    | _ => rfl


theorem link_hit_timeseries (w dm : TMap) (tl : List GoVal) (dd : TimeseriesDefinition)
    (hv : aget w "timeseries_definition" = some (.list (.imap dm :: tl)))
    (hdec : buildDatadogTimeseriesDefinition dm = .ok dd) :
    buildDatadogWidgetDefTimeseries w = .ok (some (.timeseries dd)) := by
  unfold buildDatadogWidgetDefTimeseries
  rw [hv]
  simp [hdec, bind, Except.bind, pure, Except.pure]


theorem link_nonmap_note (w : TMap) (x : GoVal) (tl : List GoVal)
    (hv : aget w "note_definition" = some (.list (x :: tl)))
    (hx : ∀ m, x ≠ .imap m) :
    buildDatadogNonGroupDefinition w = .ok none := by
  unfold buildDatadogNonGroupDefinition
  rw [hv]
  cases x with
  | imap m => exact absurd rfl (hx m)
  | _ => rfl

theorem widget_group_absent (w : TMap) (h : kindAbsent w "group_definition") :
    buildDatadogWidget w =
      (buildDatadogNonGroupDefinition w).bind fun dd => .ok (.mk dd (widgetLayoutOf w)) := by
  simp only [buildDatadogWidget]
  split
  · rename_i gm tl heq
    exact absurd heq (h _ _)
  · rename_i x tl heq
    exact absurd heq (h _ _)
  · rfl

theorem widget_group_hit (w gm : TMap) (tl : List GoVal) (gd : GroupDefinition)
    (hv : aget w "group_definition" = some (.list (.imap gm :: tl)))
    (hdec : buildDatadogGroupDefinition gm = .ok gd) :
    buildDatadogWidget w = .ok (.mk (some (.group gd)) (widgetLayoutOf w)) := by
  simp only [buildDatadogWidget]
  split
  · rename_i gm2 tl2 heq
    rw [hv] at heq
    injection heq with h1
    injection h1 with h2
    injection h2 with h3 h4
    injection h3 with h5
    subst h5
    simp [hdec, bind, Except.bind, pure, Except.pure]
  · rename_i x tl2 hne heq
    rw [hv] at heq
    injection heq with h1
    injection h1 with h2
    injection h2 with h3 h4
    exact absurd h3.symm (hne gm)
  · rename_i hne1 hne2
    exact absurd hv (hne2 _ _)

/-- C3 (amended): the decoder tests the definition-kind fields in the
fixed order group, note, alert graph, alert value, check status, free
text, iframe, image, log stream, timeseries.  The presence test is only
"the value is a non-empty `[]interface{}`": the first present field
selects the branch; when its first element is a mapping, that kind's
decoder determines the variant (shown for every kind, given the decoder
succeeds on the element); when its first element is not a mapping the
chain stops and the widget decodes successfully with no definition (shown
for the note field); when no kind field is present, decode fails with the
no-definition error. -/
theorem C3_widget_dispatch_amended :
    ∀ (w : TMap),
      ((∀ k ∈ widgetKindKeys, kindAbsent w k) →
        buildDatadogWidget w = .error (.goErr noDefMsg)) ∧
      (∀ gm tl gd, aget w "group_definition" = some (.list (.imap gm :: tl)) →
        buildDatadogGroupDefinition gm = .ok gd →
        buildDatadogWidget w = .ok (.mk (some (.group gd)) (widgetLayoutOf w))) ∧
      (∀ dm tl dd, kindAbsent w "group_definition" →
        aget w "note_definition" = some (.list (.imap dm :: tl)) →
        buildDatadogNoteDefinition dm = .ok dd →
        buildDatadogWidget w = .ok (.mk (some (.note dd)) (widgetLayoutOf w))) ∧
      (∀ dm tl dd, kindAbsent w "group_definition" → kindAbsent w "note_definition" →
        aget w "alert_graph_definition" = some (.list (.imap dm :: tl)) →
        buildDatadogAlertGraphDefinition dm = .ok dd →
        buildDatadogWidget w = .ok (.mk (some (.alertGraph dd)) (widgetLayoutOf w))) ∧
      (∀ dm tl dd, kindAbsent w "group_definition" → kindAbsent w "note_definition" → kindAbsent w "alert_graph_definition" →
        aget w "alert_value_definition" = some (.list (.imap dm :: tl)) →
        buildDatadogAlertValueDefinition dm = .ok dd →
        buildDatadogWidget w = .ok (.mk (some (.alertValue dd)) (widgetLayoutOf w))) ∧
      (∀ dm tl dd, kindAbsent w "group_definition" → kindAbsent w "note_definition" → kindAbsent w "alert_graph_definition" → kindAbsent w "alert_value_definition" →
        aget w "check_status_definition" = some (.list (.imap dm :: tl)) →
        buildDatadogCheckStatusDefinition dm = .ok dd →
        buildDatadogWidget w = .ok (.mk (some (.checkStatus dd)) (widgetLayoutOf w))) ∧
      (∀ dm tl dd, kindAbsent w "group_definition" → kindAbsent w "note_definition" → kindAbsent w "alert_graph_definition" → kindAbsent w "alert_value_definition" → kindAbsent w "check_status_definition" →
        aget w "free_text_definition" = some (.list (.imap dm :: tl)) →
        buildDatadogFreeTextDefinition dm = .ok dd →
        buildDatadogWidget w = .ok (.mk (some (.freeText dd)) (widgetLayoutOf w))) ∧
      (∀ dm tl dd, kindAbsent w "group_definition" → kindAbsent w "note_definition" → kindAbsent w "alert_graph_definition" → kindAbsent w "alert_value_definition" → kindAbsent w "check_status_definition" → kindAbsent w "free_text_definition" →
        aget w "iframe_definition" = some (.list (.imap dm :: tl)) →
        buildDatadogIframeDefinition dm = .ok dd →
        buildDatadogWidget w = .ok (.mk (some (.iframe dd)) (widgetLayoutOf w))) ∧
      (∀ dm tl dd, kindAbsent w "group_definition" → kindAbsent w "note_definition" → kindAbsent w "alert_graph_definition" → kindAbsent w "alert_value_definition" → kindAbsent w "check_status_definition" → kindAbsent w "free_text_definition" → kindAbsent w "iframe_definition" →
        aget w "image_definition" = some (.list (.imap dm :: tl)) →
        buildDatadogImageDefinition dm = .ok dd →
        buildDatadogWidget w = .ok (.mk (some (.image dd)) (widgetLayoutOf w))) ∧
      (∀ dm tl dd, kindAbsent w "group_definition" → kindAbsent w "note_definition" → kindAbsent w "alert_graph_definition" → kindAbsent w "alert_value_definition" → kindAbsent w "check_status_definition" → kindAbsent w "free_text_definition" → kindAbsent w "iframe_definition" → kindAbsent w "image_definition" →
        aget w "log_stream_definition" = some (.list (.imap dm :: tl)) →
        buildDatadogLogStreamDefinition dm = .ok dd →
        buildDatadogWidget w = .ok (.mk (some (.logStream dd)) (widgetLayoutOf w))) ∧
      (∀ dm tl dd, kindAbsent w "group_definition" → kindAbsent w "note_definition" → kindAbsent w "alert_graph_definition" → kindAbsent w "alert_value_definition" → kindAbsent w "check_status_definition" → kindAbsent w "free_text_definition" → kindAbsent w "iframe_definition" → kindAbsent w "image_definition" → kindAbsent w "log_stream_definition" →
        aget w "timeseries_definition" = some (.list (.imap dm :: tl)) →
        buildDatadogTimeseriesDefinition dm = .ok dd →
        buildDatadogWidget w = .ok (.mk (some (.timeseries dd)) (widgetLayoutOf w))) ∧
      (∀ x tl, kindAbsent w "group_definition" →
        aget w "note_definition" = some (.list (x :: tl)) →
        (∀ m, x ≠ .imap m) →
        buildDatadogWidget w = .ok (.mk none (widgetLayoutOf w))) := by
  intro w
  refine ⟨?_, ?_, ?_, ?_, ?_, ?_, ?_, ?_, ?_, ?_, ?_, ?_⟩
  · intro habs
    rw [widget_group_absent w (habs _ (by decide))]
    rw [link_skip_note w (habs _ (by decide))]
    rw [link_skip_alert_graph w (habs _ (by decide))]
    rw [link_skip_alert_value w (habs _ (by decide))]
    rw [link_skip_check_status w (habs _ (by decide))]
    rw [link_skip_free_text w (habs _ (by decide))]
    rw [link_skip_iframe w (habs _ (by decide))]
    rw [link_skip_image w (habs _ (by decide))]
    rw [link_skip_log_stream w (habs _ (by decide))]
    rw [link_skip_timeseries w (habs _ (by decide))]
    rfl
  · intro gm tl gd hv hdec
    exact widget_group_hit w gm tl gd hv hdec
  · intro dm tl dd h0 hv hdec
    rw [widget_group_absent w h0]
    rw [link_hit_note w dm tl dd hv hdec]
    rfl
  · intro dm tl dd h0 h1 hv hdec
    rw [widget_group_absent w h0]
    rw [link_skip_note w h1]
    rw [link_hit_alert_graph w dm tl dd hv hdec]
    rfl
  · intro dm tl dd h0 h1 h2 hv hdec
    rw [widget_group_absent w h0]
    rw [link_skip_note w h1]
    rw [link_skip_alert_graph w h2]
    rw [link_hit_alert_value w dm tl dd hv hdec]
    rfl
  · intro dm tl dd h0 h1 h2 h3 hv hdec
    rw [widget_group_absent w h0]
    rw [link_skip_note w h1]
    rw [link_skip_alert_graph w h2]
    rw [link_skip_alert_value w h3]
    rw [link_hit_check_status w dm tl dd hv hdec]
    rfl
  · intro dm tl dd h0 h1 h2 h3 h4 hv hdec
    rw [widget_group_absent w h0]
    rw [link_skip_note w h1]
    rw [link_skip_alert_graph w h2]
    rw [link_skip_alert_value w h3]
    rw [link_skip_check_status w h4]
    rw [link_hit_free_text w dm tl dd hv hdec]
    rfl
  · intro dm tl dd h0 h1 h2 h3 h4 h5 hv hdec
    rw [widget_group_absent w h0]
    rw [link_skip_note w h1]
    rw [link_skip_alert_graph w h2]
    rw [link_skip_alert_value w h3]
    rw [link_skip_check_status w h4]
    rw [link_skip_free_text w h5]
    rw [link_hit_iframe w dm tl dd hv hdec]
    rfl
  · intro dm tl dd h0 h1 h2 h3 h4 h5 h6 hv hdec
    rw [widget_group_absent w h0]
    rw [link_skip_note w h1]
    rw [link_skip_alert_graph w h2]
    rw [link_skip_alert_value w h3]
    rw [link_skip_check_status w h4]
    rw [link_skip_free_text w h5]
    rw [link_skip_iframe w h6]
    rw [link_hit_image w dm tl dd hv hdec]
    rfl
  · intro dm tl dd h0 h1 h2 h3 h4 h5 h6 h7 hv hdec
    rw [widget_group_absent w h0]
    rw [link_skip_note w h1]
    rw [link_skip_alert_graph w h2]
    rw [link_skip_alert_value w h3]
    rw [link_skip_check_status w h4]
    rw [link_skip_free_text w h5]
    rw [link_skip_iframe w h6]
    rw [link_skip_image w h7]
    rw [link_hit_log_stream w dm tl dd hv hdec]
    rfl
  · intro dm tl dd h0 h1 h2 h3 h4 h5 h6 h7 h8 hv hdec
    rw [widget_group_absent w h0]
    rw [link_skip_note w h1]
    rw [link_skip_alert_graph w h2]
    rw [link_skip_alert_value w h3]
    rw [link_skip_check_status w h4]
    rw [link_skip_free_text w h5]
    rw [link_skip_iframe w h6]
    rw [link_skip_image w h7]
    rw [link_skip_log_stream w h8]
    rw [link_hit_timeseries w dm tl dd hv hdec]
    rfl
  · intro x tl hg hv hx
    rw [widget_group_absent w hg]
    rw [link_nonmap_note w x tl hv hx]
    rfl

/-- C3 (counterexample): the claim counts a field as populated only when
its non-empty list holds a populated (mapping) first element, and says a
configuration with zero populated fields fails with the no-definition
error.  This configuration has zero populated fields in that sense — its
`note_definition` holds the non-mapping element `"x"` — yet the decoder
returns a widget with no definition instead of the error, because the
chain matches on the non-empty list alone and its inner map assertion
fails silently. -/
theorem C3_unpopulated_first_element_not_error :
    buildDatadogWidget [("note_definition", .list [.str "x"])] = .ok (.mk none none) := by
  rw [widget_group_absent [("note_definition", GoVal.list [.str "x"])]
    (by intro x l; simp [aget])]
  rw [link_nonmap_note _ (GoVal.str "x") [] (by simp [aget]) (by intro m; simp)]
  rfl

/-- C3 (witness): a configuration with exactly the alert-value field
populated decodes to the alert-value variant. -/
theorem C3_widget_dispatch_amended_witness :
    buildDatadogWidget [("alert_value_definition", .list [.imap [("alert_id", .str "895605")]])] =
      .ok (.mk (some (.alertValue { type := some "alert_value", alertId := some "895605" })) none) := by
  have h := (C3_widget_dispatch_amended
      [("alert_value_definition", GoVal.list [.imap [("alert_id", .str "895605")]])]).2.2.2.2.1
    [("alert_id", GoVal.str "895605")] [] { type := some "alert_value", alertId := some "895605" }
    (by intro x l; simp [aget]) (by intro x l; simp [aget]) (by intro x l; simp [aget])
    rfl rfl
  exact h

/-!
## C5 — group encode swallows a child's encode error
-/

/-- A child widget whose kind has no switch case in `buildTerraformWidget`
(event-stream is present in the source but its dispatch cases are
commented out), so its encode fails with the unsupported-widget-type
error. -/
def esChild : BoardWidget := .mk (some (.eventStream { query := some "q" })) none

/-- A group holding exactly that child. -/
def esGroup : GroupDefinition := .mk (some GROUP_WIDGET) (some "ordered") none [esChild]

/-- C5 (failing input): encoding the child alone fails with the
unsupported-widget-type error, but encoding the enclosing group — and the
enclosing widget list — succeeds: `buildTerraformGroupDefinition` discards
the child's error (`newGroupWidget, _ := buildTerraformWidget(...)`) and
emits the group with the child emptied to the nil map, contradicting the
claim (and §7 of the spec) that these decode-time structural errors are
always fatal and never silently skipped. -/
theorem C5_group_swallows_child_error :
    buildTerraformWidget esChild =
      .error (.goErr "Unsupported widget type: event_stream - timeseries") ∧
    buildTerraformGroupDefinition esGroup =
      .ok [("widget", GoVal.mapsList [[]]), ("layout_type", .str "ordered")] ∧
    buildTerraformWidgets [.mk (some (.group esGroup)) none] =
      .ok [[("group_definition",
        GoVal.mapsList [[("widget", GoVal.mapsList [[]]), ("layout_type", .str "ordered")]])]] := by
  have hchild : buildTerraformWidget esChild =
      .error (.goErr "Unsupported widget type: event_stream - timeseries") := by
    simp [buildTerraformWidget, GetWidgetType, esChild, bind, Except.bind,
      EVENT_STREAM_WIDGET, GROUP_WIDGET, NOTE_WIDGET, ALERT_GRAPH_WIDGET, ALERT_VALUE_WIDGET,
      CHECK_STATUS_WIDGET, FREE_TEXT_WIDGET, IFRAME_WIDGET, IMAGE_WIDGET, LOG_STREAM_WIDGET,
      TIMESERIES_WIDGET, BoardWidget.definition]
  have hgroup : buildTerraformGroupDefinition esGroup =
      .ok [("widget", GoVal.mapsList [[]]), ("layout_type", .str "ordered")] := by
    simp [buildTerraformGroupDefinition, buildTerraformGroupChildren, hchild,
      esGroup, bind, Except.bind, pure, Except.pure,
      GroupDefinition.widgets, GroupDefinition.layoutType, GroupDefinition.title]
  refine ⟨hchild, hgroup, ?_⟩
  have hw : buildTerraformWidget (.mk (some (.group esGroup)) none) =
      .ok [("group_definition",
        GoVal.mapsList [[("widget", GoVal.mapsList [[]]), ("layout_type", .str "ordered")]])] := by
    simp [buildTerraformWidget, GetWidgetType, bind, Except.bind, pure, Except.pure,
      BoardWidget.definition, BoardWidget.layout, GROUP_WIDGET, hgroup]
  simp [buildTerraformWidgets, hw, bind, Except.bind, pure, Except.pure]

/-!
## C9 — group nesting is forbidden by the schema, not by the conversion
-/

theorem aget_mem {α : Type} {m : List (String × α)} {k : String} {v : α}
    (h : aget m k = some v) : (k, v) ∈ m := by
  induction m with
  | nil => simp [aget] at h
  | cons e rest ih =>
    obtain ⟨k0, v0⟩ := e
    by_cases hk : k0 = k
    · subst hk
      simp [aget] at h
      subst h
      exact List.mem_cons_self _ _
    · simp [aget, hk] at h
      exact List.mem_cons_of_mem _ (ih h)

theorem schemaEntriesOk_undeclared {fields : List (String × Schema)} {entries : TMap}
    {k : String} {v : GoVal}
    (hmem : (k, v) ∈ entries) (hk : aget fields k = none) :
    schemaEntriesOk fields entries = false := by
  induction entries with
  | nil => simp at hmem
  | cons e rest ih =>
    obtain ⟨k0, v0⟩ := e
    simp only [schemaEntriesOk]
    rcases List.mem_cons.mp hmem with heq | hmem'
    · injection heq with h1 h2
      subst h1; subst h2
      split
      · rename_i s hs
        rw [hk] at hs
        cases hs
      · simp
    · rw [ih hmem']
      simp

theorem schemaEntriesOk_val_false {fields : List (String × Schema)} {entries : TMap}
    {k : String} {v : GoVal} {s : Schema}
    (hmem : (k, v) ∈ entries) (hk : aget fields k = some s)
    (hv : schemaValMatches s v = false) :
    schemaEntriesOk fields entries = false := by
  induction entries with
  | nil => simp at hmem
  | cons e rest ih =>
    obtain ⟨k0, v0⟩ := e
    simp only [schemaEntriesOk]
    rcases List.mem_cons.mp hmem with heq | hmem'
    · injection heq with h1 h2
      subst h1; subst h2
      split
      · rename_i s0 hs
        rw [hk] at hs
        injection hs with hss
        subst hss
        simp [hv]
      · simp
    · rw [ih hmem']
      simp

theorem schemaListOk_mem_false {fields : List (String × Schema)} {xs : List GoVal} {wm : TMap}
    (hmem : GoVal.imap wm ∈ xs) (h : schemaEntriesOk fields wm = false) :
    schemaListOk fields xs = false := by
  induction xs with
  | nil => simp at hmem
  | cons x rest ih =>
    rcases List.mem_cons.mp hmem with heq | hmem'
    · rw [← heq]
      simp only [schemaListOk, h]
      simp
    · cases x with
      | imap mm =>
        simp only [schemaListOk, ih hmem']
        simp
      | _ => simp [schemaListOk]

/-- A minimal inner group configuration (no children of its own). -/
def innerGroupCfg : TMap := [("layout_type", GoVal.str "ordered")]

/-- A child widget configuration whose `group_definition` block is
populated: a nested group. -/
def nestedChildCfg : TMap :=
  [("group_definition", GoVal.list [.imap innerGroupCfg])]

/-- A group configuration whose children list holds the nested-group
child. -/
def nestedGroupCfg : TMap :=
  [("widget", GoVal.list [.imap nestedChildCfg]),
   ("layout_type", GoVal.str "ordered")]

theorem innerGroup_ok :
    buildDatadogGroupDefinition innerGroupCfg =
      .ok (.mk (some GROUP_WIDGET) (some "ordered") none []) := by
  simp only [buildDatadogGroupDefinition]
  split
  · rename_i vs hw
    simp [innerGroupCfg, aget] at hw
  · simp [innerGroupCfg, aget, asStrOk, bind, Except.bind, pure, Except.pure]

theorem nestedChild_ok :
    buildDatadogWidget nestedChildCfg =
      .ok (.mk (some (.group (.mk (some GROUP_WIDGET) (some "ordered") none []))) none) := by
  have h := widget_group_hit nestedChildCfg innerGroupCfg []
    (.mk (some GROUP_WIDGET) (some "ordered") none [])
    (by simp [nestedChildCfg, aget]) innerGroup_ok
  rw [h]
  simp [widgetLayoutOf, asIMapOk, nestedChildCfg, aget]

theorem nestedWidgets_ok :
    buildDatadogWidgets [.imap nestedChildCfg] =
      .ok [.mk (some (.group (.mk (some GROUP_WIDGET) (some "ordered") none []))) none] := by
  have h1 : buildDatadogWidgets [.imap nestedChildCfg] = (do
      let w ← buildDatadogWidget nestedChildCfg
      let ws ← buildDatadogWidgets []
      pure (w :: ws)) := by
    simp only [buildDatadogWidgets]
  have h0 : buildDatadogWidgets [] = .ok [] := by
    simp only [buildDatadogWidgets]
  rw [h1, nestedChild_ok, h0]
  rfl

theorem group_def_nonempty (m : TMap) (vs : List GoVal) (ws : List BoardWidget)
    (hw : aget m "widget" = some (.list vs)) (hvs : vs.isEmpty = false)
    (hws : buildDatadogWidgets vs = .ok ws) :
    buildDatadogGroupDefinition m = .ok (.mk (some GROUP_WIDGET)
      (match asStrOk (aget m "layout_type") with
        | some v => if v = "" then none else some v
        | none => none)
      (match asStrOk (aget m "title") with
        | some v => if v = "" then none else some v
        | none => none) ws) := by
  simp only [buildDatadogGroupDefinition]
  split
  · rename_i vs2 heq
    rw [hw] at heq
    injection heq with h1
    injection h1 with h2
    subst h2
    rw [hvs]
    simp only [Bool.false_eq_true, if_false, hws, bind, Except.bind]
    rfl
  · rename_i hne
    exact absurd hw (hne _)

theorem nestedGroup_ok :
    buildDatadogGroupDefinition nestedGroupCfg =
      .ok (.mk (some GROUP_WIDGET) (some "ordered") none
        [.mk (some (.group (.mk (some GROUP_WIDGET) (some "ordered") none []))) none]) := by
  have h := group_def_nonempty nestedGroupCfg [.imap nestedChildCfg]
    [.mk (some (.group (.mk (some GROUP_WIDGET) (some "ordered") none []))) none]
    rfl rfl nestedWidgets_ok
  rw [h]
  simp [nestedGroupCfg, aget, asStrOk]

/-- C9: group nesting is forbidden structurally.  The children schema
`getNonGroupWidgetSchema` has no `group_definition` key; hence any group
configuration whose children list contains an entry with a populated
`group_definition` fails the schema validation of
`getGroupDefinitionSchema` (an undeclared key rejects the block); yet the
conversion layer itself applies no depth or kind check: on the concrete
nested-group configuration, `buildDatadogGroupDefinition` succeeds and
decodes the nested group. -/
theorem C9_group_nesting_schema_rejected :
    aget getNonGroupWidgetSchema "group_definition" = none ∧
    (∀ (g : TMap) (ws : List GoVal) (wm : TMap),
      aget g "widget" = some (.list ws) →
      GoVal.imap wm ∈ ws →
      (aget wm "group_definition").isSome →
      conformsToSchema getGroupDefinitionSchema g = false) ∧
    buildDatadogGroupDefinition nestedGroupCfg =
      .ok (.mk (some GROUP_WIDGET) (some "ordered") none
        [.mk (some (.group (.mk (some GROUP_WIDGET) (some "ordered") none []))) none]) := by
  refine ⟨rfl, ?_, nestedGroup_ok⟩
  intro g ws wm hW hmem hns
  obtain ⟨v, hv⟩ := Option.isSome_iff_exists.mp hns
  have hwm : schemaEntriesOk getNonGroupWidgetSchema wm = false :=
    schemaEntriesOk_undeclared (aget_mem hv) rfl
  have hlist : schemaListOk getNonGroupWidgetSchema ws = false :=
    schemaListOk_mem_false hmem hwm
  have hval : schemaValMatches (.mk .list true none (some (.res getNonGroupWidgetSchema)))
      (.list ws) = false := by
    simp only [schemaValMatches]
    simp [hlist]
  have hent : schemaEntriesOk getGroupDefinitionSchema g = false :=
    schemaEntriesOk_val_false (aget_mem hW) rfl hval
  simp [conformsToSchema, hent]

/-- C9 at a concrete input: the nested-group configuration fails the
group-definition schema. -/
theorem C9_group_nesting_schema_rejected_witness :
    conformsToSchema getGroupDefinitionSchema nestedGroupCfg = false :=
  C9_group_nesting_schema_rejected.2.1 nestedGroupCfg [.imap nestedChildCfg] nestedChildCfg
    rfl (by simp) (by rfl)
